import Mathlib

/-!
Verification development for the document-processing ingestion and routing
core: a shallow embedding of the router (idp_router/router.py), the
document-intelligence workflows (idp_service and databricks variants), the
SQS batch-ingestion loop, DLQ replay, the canonical schema serialisation and
the multi-parser ensemble adapter, together with theorems settling the
behavioural claims about them.

Python floats are modelled as rationals; JSON trees (loosely structured
message bodies and parser payloads) as the `JValue` inductive below.  Field
names ending in `_ratio` in the Python source are rendered `_frac` here
(e.g. `table_page_frac` embeds `table_page_ratio`).
-/

/-- JSON-like value tree, the model of Python values flowing through message
bodies and parser payloads.  `jnull` doubles as Python `None`. -/
inductive JValue where
  | jnull : JValue
  | jbool : Bool → JValue
  | jnum : ℚ → JValue
  | jstr : String → JValue
  | jarr : List JValue → JValue
  | jobj : List (String × JValue) → JValue

/-- Python truthiness of a value: None, False, 0, "", [], {} are falsy. -/
def JValue.truthy : JValue → Bool
  | .jnull => false
  | .jbool b => b
  | .jnum q => q ≠ 0
  | .jstr s => s ≠ ""
  | .jarr xs => !xs.isEmpty
  | .jobj kvs => !kvs.isEmpty

/-- Python `a or b` on values: `a` when truthy, else `b`. -/
def JValue.orElse (a b : JValue) : JValue := if a.truthy then a else b

/-- Python `dict.get(k)`: `none` when the value is not a dict or lacks the
key (the assoc list keeps the first binding, as dict keys are unique). -/
def JValue.get : JValue → String → Option JValue
  | .jobj kvs, k => (kvs.find? (fun kv => kv.1 = k)).map (·.2)
  | _, _ => none

/-- Python `dict.get(k)` with missing keys collapsed to `None` (= `jnull`). -/
def JValue.getD (v : JValue) (k : String) : JValue := (v.get k).getD .jnull

/-- Key membership, Python `k in d`. -/
def JValue.hasKey (v : JValue) (k : String) : Bool := (v.get k).isSome

/-- Whether the value is a Python dict. -/
def JValue.isObj : JValue → Bool
  | .jobj _ => true
  | _ => false

/-- Insert-or-update one binding, preserving Python dict insertion order. -/
def dictSet (kvs : List (String × JValue)) (k : String) (v : JValue) :
    List (String × JValue) :=
  if kvs.any (fun kv => kv.1 = k) then
    kvs.map (fun kv => if kv.1 = k then (k, v) else kv)
  else kvs ++ [(k, v)]

/-- Python `{**a, **b}` / `a.update(b)`: left dict updated by the right one,
new keys appended in order. -/
def dictMerge (a b : List (String × JValue)) : List (String × JValue) :=
  b.foldl (fun acc kv => dictSet acc kv.1 kv.2) a

/-- Python `float(value)` restricted to the value shapes the pipeline feeds
it: numbers pass through, booleans become 0/1, anything else (including
strings, whose decimal parse no claim exercises) fails. -/
def pyFloat? : JValue → Option ℚ
  | .jnum q => some q
  | .jbool b => some (if b then 1 else 0)
  | _ => none

/-- Truncation toward zero, the rounding of Python `int(float)`. -/
def ratTrunc (q : ℚ) : ℤ := if q < 0 then ⌈q⌉ else ⌊q⌋

/-- Python `int(value)`: numbers truncate toward zero, booleans become 0/1,
decimal strings parse, anything else fails. -/
def pyInt? : JValue → Option ℤ
  | .jnum q => some (ratTrunc q)
  | .jbool b => some (if b then 1 else 0)
  | .jstr s => s.toInt?
  | _ => none

/-! ## Router data model (idp_router/router.py) -/

/-- Summary of layout metrics for a single page (`PageMetrics`). -/
structure PageMetrics where
  index : ℤ
  text_density : ℚ
  image_density : ℚ
  table_density : ℚ
  char_count : Option ℤ
  table_count : ℤ
  image_count : ℤ
  checkbox_count : ℤ
  radio_button_count : ℤ
deriving Repr, DecidableEq

/-- Aggregated profile of a document (`DocumentProfile`); the source's
`*_ratio` fields are rendered `*_frac`. -/
structure DocumentProfile where
  object_key : String
  bucket : Option String
  mime_type : String
  page_count : ℤ
  pages : List PageMetrics
  average_text_density : ℚ
  average_image_density : ℚ
  table_page_frac : ℚ
  scanned_page_frac : ℚ
  checkbox_page_frac : ℚ
  radio_button_page_frac : ℚ
  form_page_frac : ℚ
  total_tables : ℤ
  total_checkboxes : ℤ
  total_radio_buttons : ℤ
deriving Repr, DecidableEq

/-- Raw inputs used for routing decisions (`DocumentDescriptor`); the
request override is held as the raw message value (Python stores whatever
the body carried, `None` being `Option.none`). -/
structure DocumentDescriptor where
  object_key : String
  bucket : Option String
  body : JValue
  mime_type : String
  request_override : Option JValue

/-- `_safe_float(*values, default=0.0)`: first value that converts wins,
`None` entries and conversion failures are skipped. -/
def safeFloat (values : List JValue) (default : ℚ) : ℚ :=
  match values with
  | [] => default
  | .jnull :: rest => safeFloat rest default
  | v :: rest =>
      match pyFloat? v with
      | some q => q
      | none => safeFloat rest default

/-- `_safe_int(value)`: `None` stays `None`, otherwise `int(value)` with
failures collapsed to `None`. -/
def safeInt (v : JValue) : Option ℤ := pyInt? v

/-- `_page_metrics_from_payload(idx, payload)`.  The only raising path is
`int(payload.get("index", idx))` on a present but non-integer index. -/
def pageMetricsFromPayload (idx : ℕ) (payload : JValue) :
    Except String PageMetrics := do
  let text0 := safeFloat [payload.getD "textDensity", .jnum (1/2)] 0
  let text_density :=
    if payload.hasKey "text_density" then
      safeFloat [payload.getD "text_density", .jnum text0] 0
    else text0
  let image0 := safeFloat [payload.getD "imageDensity", .jnum (1 - text_density)] 0
  let image_density :=
    if payload.hasKey "image_density" then
      safeFloat [payload.getD "image_density", .jnum image0] 0
    else image0
  let table_density :=
    safeFloat [payload.getD "tableDensity", payload.getD "table_density", .jnum 0] 0
  let char_count : Option ℤ :=
    match (payload.getD "charCount").orElse (payload.getD "char_count") with
    | .jnull => none
    | v => pyInt? v
  let table_count :=
    (safeInt ((payload.getD "tableCount").orElse
      ((payload.getD "table_count").orElse (.jnum 0)))).getD 0
  let image_count :=
    (safeInt ((payload.getD "imageCount").orElse
      ((payload.getD "image_count").orElse (.jnum 0)))).getD 0
  let checkbox_count :=
    (safeInt ((payload.getD "checkboxCount").orElse
      ((payload.getD "checkbox_count").orElse (.jnum 0)))).getD 0
  let radio_button_count :=
    (safeInt ((payload.getD "radioButtonCount").orElse
      ((payload.getD "radio_button_count").orElse (.jnum 0)))).getD 0
  let index : ℤ ←
    match payload.get "index" with
    | none => pure (idx : ℤ)
    | some v =>
        match pyInt? v with
        | some n => pure n
        | none => throw "int() failed on page index"
  pure {
    index := index
    text_density := text_density
    image_density := image_density
    table_density := table_density
    char_count := char_count
    table_count := table_count
    image_count := image_count
    checkbox_count := checkbox_count
    radio_button_count := radio_button_count }

/-- `_infer_page_count(body)`. -/
def inferPageCount (body : JValue) : Option ℤ :=
  if !body.isObj then none
  else
    let metadata := (body.get "documentMetadata").getD (.jobj [])
    if metadata.hasKey "pageCount" then pyInt? (metadata.getD "pageCount")
    else
      let layout := (metadata.get "layout").getD (.jobj [])
      match layout.get "pages" with
      | some (.jarr xs) => some (xs.length : ℤ)
      | _ =>
          match (body.getD "page_count").orElse (body.getD "pageCount") with
          | .jnull => none
          | v => pyInt? v

/-- The `_mean` helper inside `_build_profile` (`statistics.fmean`, with the
empty list mapped to `0.0` by the guard). -/
def listMean (vals : List ℚ) : ℚ :=
  if vals.isEmpty then 0 else vals.sum / (vals.length : ℚ)

/-- `_build_profile(descriptor, page_metrics)`. -/
def buildProfile (descriptor : DocumentDescriptor)
    (page_metrics : List PageMetrics) : DocumentProfile :=
  let n : ℚ := (page_metrics.length : ℚ)
  let frac (p : PageMetrics → Bool) : ℚ :=
    if page_metrics.isEmpty then 0 else ((page_metrics.countP p : ℕ) : ℚ) / n
  { object_key := descriptor.object_key
    bucket := descriptor.bucket
    mime_type := descriptor.mime_type
    page_count :=
      if page_metrics.length = 0 then (inferPageCount descriptor.body).getD 0
      else (page_metrics.length : ℤ)
    pages := page_metrics
    average_text_density := listMean (page_metrics.map (·.text_density))
    average_image_density := listMean (page_metrics.map (·.image_density))
    table_page_frac := frac (fun p => p.table_density ≥ 1/2 || p.table_count > 0)
    scanned_page_frac := frac (fun p => p.image_density ≥ 3/5 || p.image_count > 2)
    checkbox_page_frac := frac (fun p => p.checkbox_count > 0)
    radio_button_page_frac := frac (fun p => p.radio_button_count > 0)
    form_page_frac := frac (fun p => p.checkbox_count > 0 || p.radio_button_count > 0)
    total_tables := (page_metrics.map (·.table_count)).sum
    total_checkboxes := (page_metrics.map (·.checkbox_count)).sum
    total_radio_buttons := (page_metrics.map (·.radio_button_count)).sum }

/-- `HeuristicLayoutAnalyser.analyse(descriptor, content)` (the content
argument is unused by the source method). -/
def heuristicAnalyse (descriptor : DocumentDescriptor) :
    Except String DocumentProfile := do
  let metadata :=
    if descriptor.body.isObj then (descriptor.body.get "documentMetadata").getD (.jobj [])
    else .jobj []
  let layout := (metadata.getD "layout").orElse (.jobj [])
  let fromPages : List PageMetrics ←
    match layout.get "pages" with
    | some (.jarr pages) =>
        pages.enum.mapM (fun ip => pageMetricsFromPayload ip.1 ip.2)
    | _ => pure []
  let page_metrics ←
    if fromPages.isEmpty then do
      let inferred : ℤ :=
        max (match inferPageCount descriptor.body with
             | some n => if n ≠ 0 then n else 0
             | none => 0) 1
      let text_density := safeFloat [layout.getD "textDensity", .jnum (1/2)] 0
      let image_density := safeFloat [layout.getD "imageDensity", .jnum (1 - text_density)] 0
      let table_density := safeFloat [layout.getD "tableDensity", .jnum 0] 0
      pure ((List.range inferred.toNat).map (fun idx =>
        { index := (idx : ℤ)
          text_density := text_density
          image_density := image_density
          table_density := table_density
          char_count := none
          table_count := 0
          image_count := 0
          checkbox_count := 0
          radio_button_count := 0 : PageMetrics }))
    else pure fromPages
  pure (buildProfile descriptor page_metrics)

/-! ## Router configuration and strategy selection -/

/-- `RoutingMode`. -/
inductive RoutingMode where
  | static : RoutingMode
  | hybrid : RoutingMode
deriving Repr, DecidableEq

/-- `DocumentCategory`. -/
inductive DocumentCategory where
  | short_form | long_form | scanned | table_heavy | form_heavy | unknown
deriving Repr, DecidableEq

/-- `StrategyConfig` (post `from_mapping`: name a string, optional model and
max-pages). -/
structure StrategyConfig where
  name : String
  model : Option String
  max_pages : Option ℤ
deriving Repr, DecidableEq

/-- `ParserStrategy`.  The name is a raw value because the request-override
branch stores whatever the message body carried. -/
structure ParserStrategy where
  name : JValue
  reason : String
  model : Option String
  max_pages : Option ℤ

/-- `PatternOverride`: a compiled regex is modelled by its pattern text plus
its `search` predicate on the object key. -/
structure PatternOverride where
  pattern : String
  search : String → Bool
  strategy : StrategyConfig

/-- `OverrideSet`. -/
structure OverrideSet where
  pattern_overrides : List PatternOverride

/-- `RouterConfig` after `__post_init__`: the strategy map is keyed by
category, thresholds unpacked, caps parsed. `__post_init__` guarantees an
`unknown` entry in the map (inserting `fallback_strategy` when absent); a
config that dropped it would make `strategy_for_category` raise `KeyError`,
kept here as the `Option` in `strategy_for_category`. -/
structure RouterConfig where
  mode : RoutingMode
  request_override_flag : String
  default_strategy_map : List (DocumentCategory × StrategyConfig)
  fallback_strategy : StrategyConfig
  static_strategy : Option StrategyConfig
  scanned_page_frac_threshold : ℚ
  table_page_frac_threshold : ℚ
  form_page_frac_threshold : ℚ
  short_form_min_text_density : ℚ
  long_form_threshold : ℤ
  short_form_threshold : ℤ
  short_form_max_pages : Option ℤ
  long_form_max_pages : Option ℤ
  table_heavy_max_pages : Option ℤ
  form_max_pages : Option ℤ

/-- `RouterConfig.strategy_for_category`: the category's entry, else the
`unknown` entry (`none` models the `KeyError` when even that is missing). -/
def RouterConfig.strategy_for_category (cfg : RouterConfig)
    (c : DocumentCategory) : Option StrategyConfig :=
  match (cfg.default_strategy_map.find? (fun kv => kv.1 = c)).map (·.2) with
  | some s => some s
  | none => (cfg.default_strategy_map.find? (fun kv => kv.1 = .unknown)).map (·.2)

/-- `DocumentRouter._categorise(profile)`. -/
def categorise (cfg : RouterConfig) (profile : DocumentProfile) :
    DocumentCategory :=
  if profile.page_count = 0 then .unknown
  else if profile.scanned_page_frac ≥ cfg.scanned_page_frac_threshold then .scanned
  else if profile.table_page_frac ≥ cfg.table_page_frac_threshold then .table_heavy
  else if profile.form_page_frac ≥ cfg.form_page_frac_threshold then .form_heavy
  else if profile.page_count ≥ cfg.long_form_threshold then .long_form
  else if profile.page_count ≤ cfg.short_form_threshold ∧
          profile.average_text_density ≥ cfg.short_form_min_text_density then
    .short_form
  else .unknown

/-- `DocumentRouter._apply_overrides(descriptor, overrides)`: a truthy
request override wins, else the first pattern override whose regex matches
the object key. -/
def applyOverrides (descriptor : DocumentDescriptor) (overrides : OverrideSet) :
    Option ParserStrategy × List String :=
  if ((descriptor.request_override).getD .jnull).truthy then
    (some { name := (descriptor.request_override).getD .jnull
            reason := "request_override"
            model := none
            max_pages := none },
     ["request"])
  else
    match overrides.pattern_overrides.find? (fun o => o.search descriptor.object_key) with
    | some o =>
        (some { name := .jstr o.strategy.name
                reason := "config_pattern_override"
                model := o.strategy.model
                max_pages := o.strategy.max_pages },
         ["pattern:" ++ o.pattern])
    | none => (none, [])

/-- `DocumentRouter._determine_strategy(profile, category, applied)`.  The
Python guard `if threshold and page_count > threshold` treats an unset or
zero cap as absent. -/
def determineStrategy (cfg : RouterConfig) (profile : DocumentProfile)
    (category : DocumentCategory) (applied : List String) :
    Except String (ParserStrategy × List String) :=
  let threshold : Option ℤ :=
    match category with
    | .short_form => cfg.short_form_max_pages
    | .long_form => cfg.long_form_max_pages
    | .table_heavy => cfg.table_heavy_max_pages
    | .form_heavy => cfg.form_max_pages
    | _ => none
  match threshold with
  | some t =>
      if t ≠ 0 ∧ profile.page_count > t then
        pure ({ name := .jstr cfg.fallback_strategy.name
                reason := "page_threshold_exceeded"
                model := cfg.fallback_strategy.model
                max_pages := some t },
              applied ++ ["threshold_redirect"])
      else
        match cfg.strategy_for_category category with
        | some entry =>
            pure ({ name := .jstr entry.name
                    reason := "category_default"
                    model := entry.model
                    max_pages := entry.max_pages },
                  applied ++ ["category_default"])
        | none => throw "KeyError: unknown missing from default_strategy_map"
  | none =>
      match cfg.strategy_for_category category with
      | some entry =>
          pure ({ name := .jstr entry.name
                  reason := "category_default"
                  model := entry.model
                  max_pages := entry.max_pages },
                applied ++ ["category_default"])
      | none => throw "KeyError: unknown missing from default_strategy_map"

/-- `DocumentRouter._resolve_strategy(profile, descriptor, overrides,
category)`: request/pattern overrides first, then static mode, then the
page-threshold / category-default logic. -/
def resolveStrategy (cfg : RouterConfig) (profile : DocumentProfile)
    (descriptor : DocumentDescriptor) (overrides : OverrideSet)
    (category : DocumentCategory) :
    Except String (ParserStrategy × List String) :=
  match applyOverrides descriptor overrides with
  | (some s, applied) => pure (s, applied)
  | (none, applied) =>
      match cfg.mode, cfg.static_strategy with
      | .static, some static_cfg =>
          pure ({ name := .jstr static_cfg.name
                  reason := "config_static"
                  model := static_cfg.model
                  max_pages := static_cfg.max_pages },
                applied ++ ["static_config"])
      | _, _ => determineStrategy cfg profile category applied

/-- The request-override extraction portion of
`DocumentRouter._build_descriptor(body, object_key)` (router.py lines
809-815): top-level flag first, else the flag inside `body.routing` when
that is a truthy dict, else inside `body.overrides`; a JSON `null` value is
Python `None`. -/
def extractRequestOverride (flag : String) (body : JValue) : Option JValue :=
  if body.isObj then
    let routing_block := (body.getD "routing").orElse (body.getD "overrides")
    if body.hasKey flag then
      match body.getD flag with
      | .jnull => none
      | v => some v
    else if routing_block.isObj then
      match routing_block.getD flag with
      | .jnull => none
      | v => some v
    else none
  else none

/-- A `RouterConfig` with every numeric knob at its source default
(`RouterConfig` field defaults plus the `category_thresholds` defaults read
in `__post_init__`) and the databricks default strategy map
(`_resolve_default_strategy_map`). -/
def defaultRouterConfig : RouterConfig :=
  { mode := .hybrid
    request_override_flag := "parser_override"
    default_strategy_map :=
      [(.short_form, { name := "general", model := none, max_pages := none }),
       (.long_form, { name := "custom_model", model := some "longform-v1", max_pages := none }),
       (.scanned, { name := "ocr_enhanced", model := some "ocr-2024", max_pages := none }),
       (.table_heavy, { name := "table_extractor", model := some "tabular-v2", max_pages := none }),
       (.form_heavy, { name := "forms_extractor", model := some "forms-v1", max_pages := none }),
       (.unknown, { name := "fallback_non_azure", model := none, max_pages := none })]
    fallback_strategy := { name := "fallback_non_azure", model := none, max_pages := none }
    static_strategy := none
    scanned_page_frac_threshold := 1/2
    table_page_frac_threshold := 3/10
    form_page_frac_threshold := 1/4
    short_form_min_text_density := 11/20
    long_form_threshold := 100
    short_form_threshold := 15
    short_form_max_pages := none
    long_form_max_pages := none
    table_heavy_max_pages := none
    form_max_pages := none }

/-- `_EmailHTMLMetricsParser.build_metrics(index)`, as a function of the
accumulated text and artefact counts. -/
def emailHtmlBuildMetrics (index : ℤ) (text : String)
    (table_count image_count checkbox_count radio_button_count : ℕ) :
    PageMetrics :=
  let char_count : ℕ := text.trim.length
  { index := index
    text_density := min ((char_count : ℚ) / 4000) 1
    image_density := min ((image_count : ℚ) * (1/10)) 1
    table_density := min ((table_count : ℚ) * (1/4)) 1
    char_count := some (char_count : ℤ)
    table_count := (table_count : ℤ)
    image_count := (image_count : ℤ)
    checkbox_count := (checkbox_count : ℤ)
    radio_button_count := (radio_button_count : ℤ) }

/-- `PyMuPDFLayoutAnalyser._metrics_from_plain_text(text, index)`. -/
def metricsFromPlainText (text : String) (index : ℤ) : PageMetrics :=
  let char_count : ℕ := text.trim.length
  { index := index
    text_density := min ((char_count : ℚ) / 3000) 1
    image_density := 1/20
    table_density := 0
    char_count := some (char_count : ℤ)
    table_count := 0
    image_count := 0
    checkbox_count := 0
    radio_button_count := 0 }

/-! ## Canonical schema (parsers/canonical_schema.py) -/

/-- `SCHEMA_VERSION`. -/
def SCHEMA_VERSION : String := "1.1"

/-- `BoundingRegion`. -/
structure BoundingRegion where
  page : ℤ
  polygon : Option (List ℚ)
  bounding_box : Option (List ℚ)
deriving Repr, DecidableEq

/-- `ConfidenceSignal`. -/
structure ConfidenceSignal where
  source : String
  confidence : ℚ
  method : Option String
  model : Option String
  weight : Option ℚ
  metadata : List (String × JValue)

/-- `ExtractionProvenance`. -/
structure ExtractionProvenance where
  parser : String
  method : Option String
  model : Option String
  source : Option String
  page_span : Option (List ℤ)
  metadata : List (String × JValue)

/-- `CanonicalTextSpan`. -/
structure CanonicalTextSpan where
  content : String
  confidence : ℚ
  region : Option BoundingRegion
  span_id : Option String
  provenance : Option ExtractionProvenance
  confidence_signals : List ConfidenceSignal

/-- `VisualDescription`. -/
structure VisualDescription where
  description : String
  confidence : ℚ
  region : Option BoundingRegion
  tags : Option (List String)
  provenance : Option ExtractionProvenance
  confidence_signals : List ConfidenceSignal

/-- `CanonicalTableCell`. -/
structure CanonicalTableCell where
  row_index : ℤ
  column_index : ℤ
  content : String
  confidence : ℚ
  region : BoundingRegion
  row_span : ℤ
  column_span : ℤ
  provenance : Option ExtractionProvenance
  confidence_signals : List ConfidenceSignal

/-- `CanonicalTable`. -/
structure CanonicalTable where
  table_id : String
  confidence : ℚ
  cells : List CanonicalTableCell
  caption : Option String
  footnotes : Option (List String)
  provenance : Option ExtractionProvenance

/-- `StructuredField`; `value` is the nullable stringified field value. -/
structure StructuredField where
  name : String
  value : Option String
  confidence : ℚ
  value_type : Option String
  region : Option BoundingRegion
  provenance : Option ExtractionProvenance
  confidence_signals : List ConfidenceSignal

/-- `PageSegment`. -/
structure PageSegment where
  page_number : ℤ
  parser : String
  method : Option String
  confidence : Option ℚ
  metadata : List (String × JValue)

/-- `DocumentSummary`. -/
structure DocumentSummary where
  summary : String
  confidence : ℚ
  method : String
  title : Option String
  model : Option String
  justification : Option String
  metadata : List (String × JValue)

/-- `DocumentEnrichment`. -/
structure DocumentEnrichment where
  enrichment_type : String
  provider : String
  content : List (String × JValue)
  confidence : Option ℚ
  model : Option String
  duration_ms : Option ℤ
  metadata : List (String × JValue)

mutual
/-- `CanonicalDocument` (recursive through attachments). -/
inductive CanonicalDocument where
  | mk
      (document_id : String)
      (source_uri : String)
      (checksum : String)
      (text_spans : List CanonicalTextSpan)
      (tables : List CanonicalTable)
      (fields : List StructuredField)
      (visual_descriptions : List VisualDescription)
      (page_segments : List PageSegment)
      (attachments : List DocumentAttachment)
      (summaries : List DocumentSummary)
      (enrichments : List DocumentEnrichment)
      (document_type : Option String)
      (mime_type : Option String)
      (schema_version : String)
      (metadata : List (String × JValue))
/-- `DocumentAttachment`, owning an optional child `CanonicalDocument`. -/
inductive DocumentAttachment where
  | mk
      (attachment_id : String)
      (file_name : String)
      (mime_type : String)
      (checksum : Option String)
      (source_uri : Option String)
      (document : Option CanonicalDocument)
      (metadata : List (String × JValue))
end

def CanonicalDocument.document_id : CanonicalDocument → String
  | .mk v _ _ _ _ _ _ _ _ _ _ _ _ _ _ => v

def CanonicalDocument.source_uri : CanonicalDocument → String
  | .mk _ v _ _ _ _ _ _ _ _ _ _ _ _ _ => v

def CanonicalDocument.checksum : CanonicalDocument → String
  | .mk _ _ v _ _ _ _ _ _ _ _ _ _ _ _ => v

def CanonicalDocument.text_spans : CanonicalDocument → List CanonicalTextSpan
  | .mk _ _ _ v _ _ _ _ _ _ _ _ _ _ _ => v

def CanonicalDocument.tables : CanonicalDocument → List CanonicalTable
  | .mk _ _ _ _ v _ _ _ _ _ _ _ _ _ _ => v

def CanonicalDocument.fields : CanonicalDocument → List StructuredField
  | .mk _ _ _ _ _ v _ _ _ _ _ _ _ _ _ => v

def CanonicalDocument.visual_descriptions : CanonicalDocument → List VisualDescription
  | .mk _ _ _ _ _ _ v _ _ _ _ _ _ _ _ => v

def CanonicalDocument.page_segments : CanonicalDocument → List PageSegment
  | .mk _ _ _ _ _ _ _ v _ _ _ _ _ _ _ => v

def CanonicalDocument.attachments : CanonicalDocument → List DocumentAttachment
  | .mk _ _ _ _ _ _ _ _ v _ _ _ _ _ _ => v

def CanonicalDocument.summaries : CanonicalDocument → List DocumentSummary
  | .mk _ _ _ _ _ _ _ _ _ v _ _ _ _ _ => v

def CanonicalDocument.enrichments : CanonicalDocument → List DocumentEnrichment
  | .mk _ _ _ _ _ _ _ _ _ _ v _ _ _ _ => v

def CanonicalDocument.document_type : CanonicalDocument → Option String
  | .mk _ _ _ _ _ _ _ _ _ _ _ v _ _ _ => v

def CanonicalDocument.mime_type : CanonicalDocument → Option String
  | .mk _ _ _ _ _ _ _ _ _ _ _ _ v _ _ => v

def CanonicalDocument.schema_version : CanonicalDocument → String
  | .mk _ _ _ _ _ _ _ _ _ _ _ _ _ v _ => v

def CanonicalDocument.metadata : CanonicalDocument → List (String × JValue)
  | .mk _ _ _ _ _ _ _ _ _ _ _ _ _ _ v => v

/-- `model_copy(update={"summaries": ...})` on a canonical document. -/
def CanonicalDocument.withSummaries (d : CanonicalDocument)
    (s : List DocumentSummary) : CanonicalDocument :=
  match d with
  | .mk a b c ts tb fs vs ps at_ _ en dt mt sv md =>
      .mk a b c ts tb fs vs ps at_ s en dt mt sv md

/-- `model_copy(update={"enrichments": ...})` on a canonical document. -/
def CanonicalDocument.withEnrichments (d : CanonicalDocument)
    (e : List DocumentEnrichment) : CanonicalDocument :=
  match d with
  | .mk a b c ts tb fs vs ps at_ su _ dt mt sv md =>
      .mk a b c ts tb fs vs ps at_ su e dt mt sv md

/-! ## Canonical schema serialisation (`to_dict`, structural, omitting most
null optionals) -/

/-- Encode an integer as a JSON number. -/
def jint (n : ℤ) : JValue := .jnum (n : ℚ)

/-- `BoundingRegion.to_dict`. -/
def BoundingRegion.to_dict (r : BoundingRegion) : List (String × JValue) :=
  [("page", jint r.page)]
  ++ (match r.polygon with
      | some xs => [("polygon", .jarr (xs.map .jnum))]
      | none => [])
  ++ (match r.bounding_box with
      | some xs => [("bounding_box", .jarr (xs.map .jnum))]
      | none => [])

/-- `ConfidenceSignal.to_dict`. -/
def ConfidenceSignal.to_dict (s : ConfidenceSignal) : List (String × JValue) :=
  [("source", .jstr s.source), ("confidence", .jnum s.confidence)]
  ++ (match s.method with | some v => [("method", .jstr v)] | none => [])
  ++ (match s.model with | some v => [("model", .jstr v)] | none => [])
  ++ (match s.weight with | some v => [("weight", .jnum v)] | none => [])
  ++ (if s.metadata.isEmpty then [] else [("metadata", .jobj s.metadata)])

/-- `ExtractionProvenance.to_dict`. -/
def ExtractionProvenance.to_dict (p : ExtractionProvenance) :
    List (String × JValue) :=
  [("parser", .jstr p.parser)]
  ++ (match p.method with | some v => [("method", .jstr v)] | none => [])
  ++ (match p.model with | some v => [("model", .jstr v)] | none => [])
  ++ (match p.source with | some v => [("source", .jstr v)] | none => [])
  ++ (match p.page_span with
      | some xs => [("page_span", .jarr (xs.map jint))]
      | none => [])
  ++ (if p.metadata.isEmpty then [] else [("metadata", .jobj p.metadata)])

/-- `CanonicalTextSpan.to_dict`. -/
def CanonicalTextSpan.to_dict (s : CanonicalTextSpan) : List (String × JValue) :=
  [("content", .jstr s.content), ("confidence", .jnum s.confidence)]
  ++ (match s.region with | some r => [("region", .jobj r.to_dict)] | none => [])
  ++ (match s.span_id with | some v => [("span_id", .jstr v)] | none => [])
  ++ (match s.provenance with
      | some p => [("provenance", .jobj p.to_dict)]
      | none => [])
  ++ (if s.confidence_signals.isEmpty then []
      else [("confidence_signals",
             .jarr (s.confidence_signals.map (fun c => .jobj c.to_dict)))])

/-- `VisualDescription.to_dict`. -/
def VisualDescription.to_dict (v : VisualDescription) : List (String × JValue) :=
  [("description", .jstr v.description), ("confidence", .jnum v.confidence)]
  ++ (match v.region with | some r => [("region", .jobj r.to_dict)] | none => [])
  ++ (match v.tags with
      | some ts => [("tags", .jarr (ts.map .jstr))]
      | none => [])
  ++ (match v.provenance with
      | some p => [("provenance", .jobj p.to_dict)]
      | none => [])
  ++ (if v.confidence_signals.isEmpty then []
      else [("confidence_signals",
             .jarr (v.confidence_signals.map (fun c => .jobj c.to_dict)))])

/-- `CanonicalTableCell.to_dict`. -/
def CanonicalTableCell.to_dict (c : CanonicalTableCell) :
    List (String × JValue) :=
  [("row_index", jint c.row_index), ("column_index", jint c.column_index),
   ("content", .jstr c.content), ("confidence", .jnum c.confidence),
   ("region", .jobj c.region.to_dict),
   ("row_span", jint c.row_span), ("column_span", jint c.column_span)]
  ++ (match c.provenance with
      | some p => [("provenance", .jobj p.to_dict)]
      | none => [])
  ++ (if c.confidence_signals.isEmpty then []
      else [("confidence_signals",
             .jarr (c.confidence_signals.map (fun s => .jobj s.to_dict)))])

/-- `CanonicalTable.to_dict`. -/
def CanonicalTable.to_dict (t : CanonicalTable) : List (String × JValue) :=
  [("table_id", .jstr t.table_id), ("confidence", .jnum t.confidence),
   ("cells", .jarr (t.cells.map (fun c => .jobj c.to_dict)))]
  ++ (match t.caption with | some v => [("caption", .jstr v)] | none => [])
  ++ (match t.footnotes with
      | some fs => [("footnotes", .jarr (fs.map .jstr))]
      | none => [])
  ++ (match t.provenance with
      | some p => [("provenance", .jobj p.to_dict)]
      | none => [])

/-- `StructuredField.to_dict`: note that `value` is always emitted, even
when `None`. -/
def StructuredField.to_dict (f : StructuredField) : List (String × JValue) :=
  [("name", .jstr f.name),
   ("value", match f.value with | some v => .jstr v | none => .jnull),
   ("confidence", .jnum f.confidence)]
  ++ (match f.value_type with | some v => [("value_type", .jstr v)] | none => [])
  ++ (match f.region with | some r => [("region", .jobj r.to_dict)] | none => [])
  ++ (match f.provenance with
      | some p => [("provenance", .jobj p.to_dict)]
      | none => [])
  ++ (if f.confidence_signals.isEmpty then []
      else [("confidence_signals",
             .jarr (f.confidence_signals.map (fun s => .jobj s.to_dict)))])

/-- `PageSegment.to_dict`. -/
def PageSegment.to_dict (p : PageSegment) : List (String × JValue) :=
  [("page_number", jint p.page_number), ("parser", .jstr p.parser)]
  ++ (match p.method with | some v => [("method", .jstr v)] | none => [])
  ++ (match p.confidence with | some v => [("confidence", .jnum v)] | none => [])
  ++ (if p.metadata.isEmpty then [] else [("metadata", .jobj p.metadata)])

/-- `DocumentSummary.to_dict`. -/
def DocumentSummary.to_dict (s : DocumentSummary) : List (String × JValue) :=
  [("summary", .jstr s.summary), ("confidence", .jnum s.confidence),
   ("method", .jstr s.method)]
  ++ (match s.title with | some v => [("title", .jstr v)] | none => [])
  ++ (match s.model with | some v => [("model", .jstr v)] | none => [])
  ++ (match s.justification with
      | some v => [("justification", .jstr v)]
      | none => [])
  ++ (if s.metadata.isEmpty then [] else [("metadata", .jobj s.metadata)])

/-- `DocumentEnrichment.to_dict`. -/
def DocumentEnrichment.to_dict (e : DocumentEnrichment) :
    List (String × JValue) :=
  [("enrichment_type", .jstr e.enrichment_type),
   ("provider", .jstr e.provider),
   ("content", .jobj e.content)]
  ++ (match e.confidence with | some v => [("confidence", .jnum v)] | none => [])
  ++ (match e.model with | some v => [("model", .jstr v)] | none => [])
  ++ (match e.duration_ms with | some v => [("duration_ms", jint v)] | none => [])
  ++ (if e.metadata.isEmpty then [] else [("metadata", .jobj e.metadata)])

mutual
/-- `CanonicalDocument.to_dict` (`to_record` returns the same dict). -/
def CanonicalDocument.to_dict : CanonicalDocument → List (String × JValue)
  | .mk did suri csum ts tb fs vs ps atts sums enrs dt mt sv md =>
      [("document_id", .jstr did), ("source_uri", .jstr suri),
       ("checksum", .jstr csum), ("schema_version", .jstr sv),
       ("metadata", .jobj md),
       ("text_spans", .jarr (ts.map (fun s => .jobj s.to_dict))),
       ("tables", .jarr (tb.map (fun t => .jobj t.to_dict))),
       ("fields", .jarr (fs.map (fun f => .jobj f.to_dict)))]
      ++ (if sums.isEmpty then []
          else [("summaries", .jarr (sums.map (fun s => .jobj s.to_dict)))])
      ++ (if enrs.isEmpty then []
          else [("enrichments", .jarr (enrs.map (fun e => .jobj e.to_dict)))])
      ++ (if vs.isEmpty then []
          else [("visual_descriptions", .jarr (vs.map (fun v => .jobj v.to_dict)))])
      ++ (if ps.isEmpty then []
          else [("page_segments", .jarr (ps.map (fun p => .jobj p.to_dict)))])
      ++ (if atts.isEmpty then []
          else [("attachments", .jarr (attachmentDicts atts))])
      ++ (match dt with | some s => [("document_type", .jstr s)] | none => [])
      ++ (match mt with | some s => [("mime_type", .jstr s)] | none => [])

/-- The list comprehension over attachments inside `CanonicalDocument.to_dict`. -/
def attachmentDicts : List DocumentAttachment → List JValue
  | [] => []
  | a :: rest => .jobj a.to_dict :: attachmentDicts rest

/-- `DocumentAttachment.to_dict`. -/
def DocumentAttachment.to_dict : DocumentAttachment → List (String × JValue)
  | .mk aid fname mt csum suri doc md =>
      [("attachment_id", .jstr aid), ("file_name", .jstr fname),
       ("mime_type", .jstr mt)]
      ++ (match csum with | some v => [("checksum", .jstr v)] | none => [])
      ++ (match suri with | some v => [("source_uri", .jstr v)] | none => [])
      ++ (if md.isEmpty then [] else [("metadata", .jobj md)])
      ++ (match doc with
          | some d => [("document", .jobj d.to_dict)]
          | none => [])
end

mutual
/-- No `null` occurs anywhere in the value. -/
def JValue.noNulls : JValue → Bool
  | .jnull => false
  | .jbool _ => true
  | .jnum _ => true
  | .jstr _ => true
  | .jarr xs => jarrNoNulls xs
  | .jobj kvs => jobjNoNulls kvs

/-- No `null` in any element of the array. -/
def jarrNoNulls : List JValue → Bool
  | [] => true
  | x :: xs => x.noNulls && jarrNoNulls xs

/-- No `null` in any value of the object. -/
def jobjNoNulls : List (String × JValue) → Bool
  | [] => true
  | kv :: kvs => kv.2.noNulls && jobjNoNulls kvs
end

/-! ## Document intelligence workflows
(idp_service/document_intelligence_workflow.py and
databricks/document_intelligence_workflow.py) -/

/-- The result store keyed by `(document_id, checksum)` (`DocumentResultStore`
with the `InMemoryDocumentResultStore` semantics: `has_record` is key
membership, `save` records the key). -/
abbrev StoreState := List (String × String)

/-- `store.has_record(document_id, checksum)`. -/
def storeHasRecord (store : StoreState) (document_id checksum : String) : Bool :=
  store.any (fun kv => kv.1 = document_id && kv.2 = checksum)

/-- `store.save(result)` as its effect on the key set. -/
def storeSaveKey (store : StoreState) (document_id checksum : String) :
    StoreState :=
  store ++ [(document_id, checksum)]

/-- Collaborators of the workflows.  `checksumFn` stands for
`hashlib.sha256(payload).hexdigest()` (standard library, outside src);
`analyze` for `AzureDocumentIntelligenceService.analyze` (vendor call whose
error is the retry-exhausted exception); `transform` for
`config.adapter.transform`; `summarise` for `config.summarizer.summarise`;
`attachChildren` for `_attach_email_children` (which walks the MIME tree via
the standard email library); `enrich` for the enrichment dispatcher;
`denormRecords` for `canonical_to_denorm_records`. -/
structure WorkflowEnv where
  checksumFn : List ℕ → String
  analyze : List ℕ → Except String JValue
  transform : JValue → String → String → String → List (String × JValue) →
      CanonicalDocument
  summarise : CanonicalDocument → List DocumentSummary
  attachChildren : CanonicalDocument → List ℕ → String →
      List (String × JValue) → CanonicalDocument
  hasEnrichmentDispatcher : Bool
  enrich : CanonicalDocument → List String → List DocumentEnrichment
  denormRecords : CanonicalDocument → List JValue

/-- `WorkflowResult` of the databricks variant: `document` and `skipped`. -/
structure WorkflowResultDbx where
  document : Option CanonicalDocument
  skipped : Bool

/-- `WorkflowResult` of the idp_service variant: `document`, `skipped`,
`records`. -/
structure WorkflowResultIdp where
  document : Option CanonicalDocument
  skipped : Bool
  records : List JValue

/-- `DocumentIntelligenceWorkflow.process` of
databricks/document_intelligence_workflow.py (lines 105-146). -/
def dbxProcess (env : WorkflowEnv) (store : StoreState) (document_id : String)
    (document_bytes : List ℕ) (source_uri : String)
    (metadata : List (String × JValue)) (force : Bool) :
    Except String (WorkflowResultDbx × StoreState) := do
  let checksum := env.checksumFn document_bytes
  if !force && storeHasRecord store document_id checksum then
    pure ({ document := none, skipped := true }, store)
  else do
    let analyze_result ← env.analyze document_bytes
    let canonical := env.transform analyze_result document_id source_uri checksum metadata
    let canonical :=
      match env.summarise canonical with
      | [] => canonical
      | sums => canonical.withSummaries (canonical.summaries ++ sums)
    pure ({ document := some canonical, skipped := false },
          storeSaveKey store canonical.document_id canonical.checksum)

/-- `DocumentIntelligenceWorkflow.process` of
idp_service/document_intelligence_workflow.py (lines 121-188).  Its
dedup branch executes
`WorkflowResult(document=None, skipped=True, raw_result=None, records=[])`,
but `WorkflowResult` declares only `document`, `skipped` and `records`, so
the constructor call raises `TypeError` instead of returning. -/
def idpProcess (env : WorkflowEnv) (store : StoreState) (document_id : String)
    (document_bytes : List ℕ) (source_uri : String)
    (metadata : List (String × JValue)) (force : Bool)
    (enrich_with : Option (List String)) :
    Except String (WorkflowResultIdp × StoreState) := do
  let checksum := env.checksumFn document_bytes
  if !force && storeHasRecord store document_id checksum then
    throw "TypeError: WorkflowResult got an unexpected keyword argument raw_result"
  else do
    let analyze_result ← env.analyze document_bytes
    let canonical := env.transform analyze_result document_id source_uri checksum metadata
    let canonical := env.attachChildren canonical document_bytes source_uri metadata
    let canonical :=
      match env.summarise canonical with
      | [] => canonical
      | sums => canonical.withSummaries (canonical.summaries ++ sums)
    let canonical :=
      match enrich_with with
      | some names =>
          if env.hasEnrichmentDispatcher && !names.isEmpty then
            match env.enrich canonical names with
            | [] => canonical
            | enrs => canonical.withEnrichments (canonical.enrichments ++ enrs)
          else canonical
      | none => canonical
    pure ({ document := some canonical, skipped := false,
            records := env.denormRecords canonical },
          storeSaveKey store canonical.document_id canonical.checksum)

/-! ## SQS batch ingestion (databricks/sqs_batch_ingestion.py) -/

/-- A received SQS message as the ingestion loop sees it (the JSON body is
already parsed; `json.loads` happens before the per-message loop). -/
structure SqsMessage where
  message_id : String
  receipt_handle : String
  body : JValue

/-- `_resolve_object_key(body)`: the first truthy candidate among
`body.s3.object.key`, `body.object_key`, `body.objectKey`,
`body.source_path` (each `None` when the body is not a dict). -/
def resolveObjectKey (body : JValue) : Option JValue :=
  let c1 :=
    if body.isObj then
      ((((body.get "s3").getD (.jobj [])).get "object").getD (.jobj [])).getD "key"
    else .jnull
  let c2 := if body.isObj then body.getD "object_key" else .jnull
  let c3 := if body.isObj then body.getD "objectKey" else .jnull
  let c4 := if body.isObj then body.getD "source_path" else .jnull
  [c1, c2, c3, c4].find? (·.truthy)

/-- Acknowledgement-relevant portion of one `process_messages` cycle.  The
outcome of the per-message loop (lines 510-526): messages without an object
key are skipped from routing and persistence (lines 511-514), while the
receipt handles of ALL received messages were collected up front
(line 504) and the whole list is passed to `delete_messages` at the end of
the cycle (line 545). -/
structure BatchOutcome where
  routed_keys : List JValue
  skipped_message_ids : List String
  deleted_receipt_handles : List String

/-- The cycle skeleton of `process_messages` described above. -/
def processBatchSkeleton (messages : List SqsMessage) : BatchOutcome :=
  let receipt_handles := messages.map (·.receipt_handle)
  { routed_keys := messages.filterMap (fun m => resolveObjectKey m.body)
    skipped_message_ids :=
      (messages.filter (fun m => (resolveObjectKey m.body).isNone)).map
        (·.message_id)
    deleted_receipt_handles := receipt_handles }

/-! ## DLQ replay (databricks/dlq_replay.py) -/

/-- A message received from the dead-letter queue. -/
structure DlqMessage where
  message_id : String
  body : String
  receipt_handle : String

/-- One observable SQS side effect of `replay_dead_letter_queue`. -/
inductive ReplayAction where
  | sendOk (message_id : String)
  | sendFailed (message_id : String)
  | deleteMsg (message_id : String)
deriving Repr, DecidableEq

/-- The `limit is not None and replayed >= limit` guard. -/
def limitReached (limit : Option ℕ) (replayed : ℕ) : Bool :=
  match limit with
  | some l => replayed ≥ l
  | none => false

/-- The per-batch message loop of `replay_dead_letter_queue` (lines 87-104):
for each message, attempt `send_message` to the target queue; a
`ClientError` is logged and the loop continues; only after a successful
send is `delete_message` issued and `replayed` incremented.  Returns the
emitted action trace and the updated `replayed` counter.  `sendSucceeds`
abstracts which sends raise `ClientError`. -/
def replayBatch (sendSucceeds : DlqMessage → Bool) (limit : Option ℕ) :
    List DlqMessage → ℕ → List ReplayAction × ℕ
  | [], replayed => ([], replayed)
  | m :: rest, replayed =>
      if limitReached limit replayed then ([], replayed)
      else if sendSucceeds m then
        let next := replayBatch sendSucceeds limit rest (replayed + 1)
        (.sendOk m.message_id :: .deleteMsg m.message_id :: next.1, next.2)
      else
        let next := replayBatch sendSucceeds limit rest replayed
        (.sendFailed m.message_id :: next.1, next.2)

/-- The message id an action concerns. -/
def ReplayAction.actionId : ReplayAction → String
  | .sendOk i => i
  | .sendFailed i => i
  | .deleteMsg i => i

/-- Restriction of an action trace to one message id. -/
def actionsFor (acts : List ReplayAction) (i : String) : List ReplayAction :=
  acts.filter (fun a => a.actionId = i)

/-! ## Parser adapter helpers (parsers/adapters/base.py and shared utilities)

The stub pydantic shipped with the repository performs no validation or
coercion, so model fields hold whatever the adapters pass.  Where the
Python source calls `str(...)` we use `pyStr`; where a raw value lands in a
string-typed field the claims only ever pass strings, and `pyStr` is the
identity on those. -/

/-- Python `str(value)` on the value shapes the adapters stringify (claims
only stringify strings and integers; the other branches are placeholders
that no claim exercises). -/
def pyStr : JValue → String
  | .jstr s => s
  | .jnull => "None"
  | .jbool b => if b then "True" else "False"
  | .jnum q => if q.den = 1 then toString q.num else toString q
  | .jarr _ => "<list>"
  | .jobj _ => "<dict>"

/-- `ParserAdapter._normalise_confidence`: `None` becomes `1.0`, numerics
convert, anything else raises `AdapterError`. -/
def normaliseConfidence (v : JValue) : Except String ℚ :=
  match v with
  | .jnull => pure 1
  | v =>
      match pyFloat? v with
      | some q => pure q
      | none => throw "Confidence values must be numeric"

/-- Raising `int(value)`. -/
def pyIntE (v : JValue) : Except String ℤ :=
  match pyInt? v with
  | some n => pure n
  | none => throw "int() conversion failed"

/-- `_ensure_list_of_float(values)` (identical helper in pymupdf.py and
databricks_llm_image.py): `None` stays `None`, a list converts elementwise
with `float`, and iterating anything else is outside claim scope and
modelled as the `TypeError` it would typically raise. -/
def ensureListOfFloat (v : JValue) : Except String (Option (List ℚ)) :=
  match v with
  | .jnull => pure none
  | .jarr xs => do
      let qs ← xs.mapM (fun x =>
        match pyFloat? x with
        | some q => (pure q : Except String ℚ)
        | none => throw "float() conversion failed")
      pure (some qs)
  | _ => throw "TypeError: value is not iterable as floats"

/-- Narrow a raw Python value into an optional string field (`None` absent,
claims only store strings). -/
def jstrOpt (v : JValue) : Option String :=
  match v with
  | .jnull => none
  | v => some (pyStr v)

/-- Assoc-list lookup on a metadata dict. -/
def mdGet (kvs : List (String × JValue)) (k : String) : Option JValue :=
  (kvs.find? (fun kv => kv.1 = k)).map (·.2)

/-- Assoc-list lookup with missing keys collapsed to `None`. -/
def mdGetD (kvs : List (String × JValue)) (k : String) : JValue :=
  (mdGet kvs k).getD .jnull

/-- `_ensure_mapping(payload)` shared by the adapters. -/
def ensureMapping (payload : JValue) (emptyMsg badMsg : String) :
    Except String (List (String × JValue)) :=
  match payload with
  | .jnull => throw emptyMsg
  | .jobj kvs => pure kvs
  | _ => throw badMsg

/-! ## PyMuPDF adapter (parsers/adapters/pymupdf.py) -/

/-- `default_page or 1` then `int(...)` in `PyMuPDFAdapter._build_region`. -/
def defaultPageOr1 (default_page : Option ℤ) : ℤ :=
  match default_page with
  | some n => if n ≠ 0 then n else 1
  | none => 1

/-- `PyMuPDFAdapter._build_region(payload, default_page)`. -/
def pymupdfBuildRegion (payload : Option JValue) (default_page : Option ℤ) :
    Except String BoundingRegion := do
  match payload with
  | none =>
      pure { page := defaultPageOr1 default_page, polygon := none,
             bounding_box := none }
  | some pl => do
      let page_value :=
        (pl.getD "page").orElse ((pl.getD "page_number").orElse (pl.getD "pageNumber"))
      let page ←
        match page_value with
        | .jnull => pure (defaultPageOr1 default_page)
        | v => pyIntE v
      let polygon ← ensureListOfFloat (pl.getD "polygon")
      let bounding_box ← ensureListOfFloat
        ((pl.getD "bounding_box").orElse ((pl.getD "bbox").orElse (pl.getD "rect")))
      pure { page := page, polygon := polygon, bounding_box := bounding_box }

/-- The key scan of `PyMuPDFAdapter._collect_text_items`. -/
def firstListUnder (page : JValue) : List String → Option (List JValue)
  | [] => none
  | k :: ks =>
      match page.get k with
      | some (.jarr xs) => some xs
      | _ => firstListUnder page ks

/-- `PyMuPDFAdapter._collect_text_items(page)`. -/
def collectTextItems (page : JValue) : List JValue :=
  match firstListUnder page ["text_spans", "spans", "text_blocks", "blocks", "lines"] with
  | some xs => xs
  | none =>
      match page.get "text" with
      | some (.jstr t) =>
          if t.trim ≠ "" then
            [.jobj [("content", .jstr t), ("confidence", page.getD "confidence")]]
          else []
      | _ => []

/-- One iteration of the loop in `PyMuPDFAdapter._parse_page_text`
(`none` models `continue`). -/
def pymupdfParseTextItem (page : JValue) (page_number : ℤ) (idx : ℕ)
    (item : JValue) : Except String (Option CanonicalTextSpan) := do
  if !item.isObj then pure none
  else
    let content := (item.getD "content").orElse (item.getD "text")
    if !content.truthy then pure none
    else do
      let confidence ← normaliseConfidence
        ((item.getD "confidence").orElse (page.getD "confidence"))
      let span_id := (item.getD "id").orElse
        (.jstr ("p" ++ toString page_number ++ "-span-" ++ toString idx))
      let region ← pymupdfBuildRegion (some item) (some page_number)
      let method := pyStr ((item.getD "method").orElse (.jstr "text_block"))
      let provenance : ExtractionProvenance :=
        { parser := "pymupdf", method := some method, model := none,
          source := none, page_span := some [region.page], metadata := [] }
      let signal : ConfidenceSignal :=
        { source := "pymupdf", confidence := confidence, method := some method,
          model := none, weight := none, metadata := [] }
      pure (some
        { content := pyStr content, confidence := confidence,
          region := some region, span_id := some (pyStr span_id),
          provenance := some provenance, confidence_signals := [signal] })

/-- `PyMuPDFAdapter._parse_page_text(page, page_number)`. -/
def pymupdfParsePageText (page : JValue) (page_number : ℤ) :
    Except String (List CanonicalTextSpan) := do
  let items := collectTextItems page
  let parsed ← items.enum.mapM (fun ix => pymupdfParseTextItem page page_number ix.1 ix.2)
  pure parsed.reduceOption

/-- One cell of `PyMuPDFAdapter._parse_page_tables`. -/
def pymupdfParseCell (t : JValue) (page_number : ℤ) (cell : JValue) :
    Except String (Option CanonicalTableCell) := do
  if !cell.isObj then pure none
  else do
    let content := (cell.getD "content").orElse ((cell.getD "text").orElse (.jstr ""))
    let row_index ← pyIntE ((cell.getD "row_index").orElse ((cell.getD "row").orElse (.jnum 0)))
    let column_index ← pyIntE
      ((cell.getD "column_index").orElse ((cell.getD "column").orElse (.jnum 0)))
    let row_span ← pyIntE ((cell.getD "row_span").orElse ((cell.getD "rowSpan").orElse (.jnum 1)))
    let column_span ← pyIntE
      ((cell.getD "column_span").orElse
        ((cell.getD "col_span").orElse ((cell.getD "columnSpan").orElse (.jnum 1))))
    let confidence ← normaliseConfidence
      ((cell.getD "confidence").orElse (t.getD "confidence"))
    let region ← pymupdfBuildRegion (some cell) (some page_number)
    let provenance : ExtractionProvenance :=
      { parser := "pymupdf", method := some "table_cell", model := none,
        source := none, page_span := some [region.page], metadata := [] }
    let signal : ConfidenceSignal :=
      { source := "pymupdf", confidence := confidence, method := some "table_cell",
        model := none, weight := none, metadata := [] }
    pure (some
      { row_index := row_index, column_index := column_index,
        content := pyStr content, confidence := confidence, region := region,
        row_span := row_span, column_span := column_span,
        provenance := some provenance, confidence_signals := [signal] })

/-- One table of `PyMuPDFAdapter._parse_page_tables`. -/
def pymupdfParseTable (page : JValue) (page_number : ℤ) (tidx : ℕ)
    (t : JValue) : Except String (Option CanonicalTable) := do
  if !t.isObj then pure none
  else do
    let table_id := (t.getD "id").orElse
      (.jstr ("p" ++ toString page_number ++ "-table-" ++ toString tidx))
    let table_confidence ← normaliseConfidence
      ((t.getD "confidence").orElse (page.getD "confidence"))
    let cellsRaw :=
      match (t.getD "cells").orElse (.jarr []) with
      | .jarr xs => xs
      | _ => []
    let cellsParsed ← cellsRaw.mapM (pymupdfParseCell t page_number)
    let provenance : ExtractionProvenance :=
      { parser := "pymupdf", method := some "table", model := none,
        source := none, page_span := some [page_number], metadata := [] }
    let footnotes : Option (List String) :=
      match (t.getD "footnotes").orElse (.jarr []) with
      | .jarr xs => some (xs.map pyStr)
      | _ => some []
    pure (some
      { table_id := pyStr table_id, confidence := table_confidence,
        cells := cellsParsed.reduceOption, caption := jstrOpt (t.getD "caption"),
        footnotes := footnotes, provenance := some provenance })

/-- `PyMuPDFAdapter._parse_page_tables(page, page_number)` (iterating a
truthy non-list `tables` payload is outside claim scope). -/
def pymupdfParsePageTables (page : JValue) (page_number : ℤ) :
    Except String (List CanonicalTable) := do
  let tables :=
    match (page.getD "tables").orElse (.jarr []) with
    | .jarr xs => xs
    | _ => []
  let parsed ← tables.enum.mapM (fun ix => pymupdfParseTable page page_number ix.1 ix.2)
  pure parsed.reduceOption

/-- One entry of `PyMuPDFAdapter._parse_structured_fields`. -/
def pymupdfParseStructuredField (page_hint : Option ℤ) (name : JValue)
    (payload : JValue) : Except String (Option StructuredField) := do
  if !payload.isObj then pure none
  else do
    let value := (payload.getD "value").orElse (payload.getD "text")
    let confidence ← normaliseConfidence (payload.getD "confidence")
    let region ← pymupdfBuildRegion (some payload) page_hint
    let method := pyStr ((payload.getD "method").orElse (.jstr "field"))
    let provenance : ExtractionProvenance :=
      { parser := "pymupdf", method := some method, model := none,
        source := none, page_span := some [region.page], metadata := [] }
    let signal : ConfidenceSignal :=
      { source := "pymupdf", confidence := confidence, method := some method,
        model := none, weight := none, metadata := [] }
    pure (some
      { name := pyStr name,
        value := (match value with | .jnull => none | v => some (pyStr v))
        confidence := confidence
        value_type := jstrOpt ((payload.getD "value_type").orElse (payload.getD "type"))
        region := some region, provenance := some provenance,
        confidence_signals := [signal] })

/-- `PyMuPDFAdapter._parse_structured_fields(fields, page_hint)`. -/
def pymupdfParseStructuredFields (fields : JValue) (page_hint : Option ℤ) :
    Except String (List StructuredField) := do
  if !fields.truthy then pure []
  else do
    let items : List (JValue × JValue) :=
      match fields with
      | .jobj kvs => kvs.map (fun kv => (JValue.jstr kv.1, kv.2))
      | .jarr xs => xs.enum.map (fun ix => (JValue.jnum (ix.1 : ℚ), ix.2))
      | _ => []
    let parsed ← items.mapM (fun nv => pymupdfParseStructuredField page_hint nv.1 nv.2)
    pure parsed.reduceOption

/-- Accumulator of the per-page loop in `PyMuPDFAdapter.transform`. -/
structure PymupdfAccum where
  text_spans : List CanonicalTextSpan
  tables : List CanonicalTable
  fields : List StructuredField
  page_segments : List PageSegment

/-- One iteration of the per-page loop in `PyMuPDFAdapter.transform`
(non-dict pages are skipped). -/
def pymupdfPageStep (acc : PymupdfAccum) (page : JValue) :
    Except String PymupdfAccum := do
  if !page.isObj then pure acc
  else do
    let page_number ← pyIntE
      ((page.getD "page_number").orElse
        ((page.getD "number").orElse ((page.getD "index").orElse (.jnum 1))))
    let page_confidence ← normaliseConfidence (page.getD "confidence")
    let seg : PageSegment :=
      { page_number := page_number, parser := "pymupdf"
        method := some (pyStr ((page.getD "method").orElse (.jstr "text")))
        confidence := some page_confidence
        metadata :=
          match page.getD "rotation" with
          | .jnull => []
          | v => [("rotation", v)] }
    let newSpans ← pymupdfParsePageText page page_number
    let newTables ← pymupdfParsePageTables page page_number
    let newFields ← pymupdfParseStructuredFields (page.getD "fields") (some page_number)
    pure { text_spans := acc.text_spans ++ newSpans
           tables := acc.tables ++ newTables
           fields := acc.fields ++ newFields
           page_segments := acc.page_segments ++ [seg] }

/-- `PyMuPDFAdapter.transform(payload, document_id=..., source_uri=...,
checksum=..., metadata=...)`. -/
def pymupdfTransform (payload : JValue) (document_id source_uri checksum : String)
    (metadata : List (String × JValue)) : Except String CanonicalDocument := do
  let payload_dict ← ensureMapping payload
    "PyMuPDF payload is empty" "PyMuPDF payload must be a mapping"
  let payloadObj := JValue.jobj payload_dict
  let pages ←
    match payloadObj.get "pages" with
    | some (.jarr xs) =>
        if xs.isEmpty then
          throw "PyMuPDF payload must include a non-empty pages list"
        else pure xs
    | _ => throw "PyMuPDF payload must include a non-empty pages list"
  let acc ← pages.foldlM pymupdfPageStep
    { text_spans := [], tables := [], fields := [], page_segments := [] }
  let globalFields ← pymupdfParseStructuredFields (payloadObj.getD "fields") none
  let fields := acc.fields ++ globalFields
  let payloadMeta ←
    match (payloadObj.getD "metadata").orElse (.jobj []) with
    | .jobj kvs => pure kvs
    | _ => throw "TypeError: payload metadata is not a mapping"
  let metadata_payload :=
    dictMerge (dictMerge [("provider", .jstr "pymupdf")] payloadMeta) metadata
  let dt := (mdGetD metadata_payload "document_type").orElse
    ((payloadObj.getD "document_type").orElse (.jstr "document"))
  let mime := (mdGetD metadata_payload "mime_type").orElse (payloadObj.getD "mime_type")
  pure (.mk document_id source_uri checksum acc.text_spans acc.tables fields
    [] acc.page_segments [] [] [] (some (pyStr dt)) (jstrOpt mime)
    SCHEMA_VERSION metadata_payload)

/-! ## Databricks LLM image adapter (parsers/adapters/databricks_llm_image.py) -/

/-- `_snake_to_camel(name)`. -/
def snakeToCamel (name : String) : String :=
  match name.splitOn "_" with
  | [] => name
  | first :: rest =>
      first ++ String.join (rest.map (fun part =>
        match part.toList with
        | [] => ""
        | c :: cs => String.mk (c.toUpper :: cs.map Char.toLower)))

/-- `DatabricksLLMImageAdapter._get_collection(payload, key)`: the key
itself if its value is not `None`, else the camelCase key when present
(returning its raw value, possibly `null`). -/
def dllGetCollection (payload : JValue) (k : String) : Option JValue :=
  match payload.getD k with
  | .jnull =>
      let camel := snakeToCamel k
      if payload.hasKey camel then some (payload.getD camel) else none
  | v => some v

/-- `DatabricksLLMImageAdapter._build_region(entry)`. -/
def dllBuildRegion (entry : JValue) : Except String (Option BoundingRegion) := do
  let page := (entry.getD "page").orElse
    ((entry.getD "page_number").orElse (entry.getD "pageNumber"))
  let polygon := entry.getD "polygon"
  let bounding_box := (entry.getD "bounding_box").orElse (entry.getD "boundingBox")
  match page, polygon, bounding_box with
  | .jnull, .jnull, .jnull => pure none
  | _, _, _ => do
      let pageInt ←
        match page with
        | .jnull => pure (1 : ℤ)
        | v => pyIntE v
      let poly ← ensureListOfFloat polygon
      let bbox ← ensureListOfFloat bounding_box
      pure (some { page := pageInt, polygon := poly, bounding_box := bbox })

/-- One iteration of `DatabricksLLMImageAdapter._parse_text`. -/
def dllParseSpan (idx : ℕ) (span : JValue) :
    Except String (Option CanonicalTextSpan) := do
  if !span.isObj then pure none
  else
    let content := (span.getD "content").orElse (span.getD "text")
    if !content.truthy then pure none
    else do
      let confidence ← normaliseConfidence (span.getD "confidence")
      let span_id := (span.getD "id").orElse
        ((span.getD "span_id").orElse (.jstr ("span-" ++ toString idx)))
      let region ← dllBuildRegion span
      let provenance : ExtractionProvenance :=
        { parser := "databricks_llm_image", method := some "llm_text",
          model := none, source := none,
          page_span := region.map (fun r => [r.page]), metadata := [] }
      let signal : ConfidenceSignal :=
        { source := "databricks_llm_image", confidence := confidence,
          method := some "llm_text", model := none, weight := none,
          metadata := [] }
      pure (some
        { content := pyStr content, confidence := confidence, region := region,
          span_id := some (pyStr span_id), provenance := some provenance,
          confidence_signals := [signal] })

/-- One iteration of `DatabricksLLMImageAdapter._parse_fields`. -/
def dllParseField (entry : JValue) : Except String (Option StructuredField) := do
  if !entry.isObj then pure none
  else
    let name := entry.getD "name"
    if !name.truthy then pure none
    else do
      let confidence ← normaliseConfidence (entry.getD "confidence")
      let region ← dllBuildRegion entry
      let provenance : ExtractionProvenance :=
        { parser := "databricks_llm_image", method := some "llm_field",
          model := none, source := none,
          page_span := region.map (fun r => [r.page]), metadata := [] }
      let signal : ConfidenceSignal :=
        { source := "databricks_llm_image", confidence := confidence,
          method := some "llm_field", model := none, weight := none,
          metadata := [] }
      pure (some
        { name := pyStr name
          value :=
            (match entry.getD "value" with
             | .jnull => none
             | v => some (pyStr v))
          confidence := confidence
          value_type := jstrOpt ((entry.getD "value_type").orElse (entry.getD "type"))
          region := region, provenance := some provenance,
          confidence_signals := [signal] })

/-- One iteration of the list loop in
`DatabricksLLMImageAdapter._parse_visuals`. -/
def dllParseVisual (entry : JValue) :
    Except String (Option VisualDescription) := do
  if !entry.isObj then pure none
  else
    let description := (entry.getD "description").orElse (entry.getD "content")
    if !description.truthy then pure none
    else do
      let confidence ← normaliseConfidence (entry.getD "confidence")
      let tags : Option (List String) :=
        match (entry.getD "tags").orElse (entry.getD "labels") with
        | .jnull => none
        | .jarr xs => some (xs.map pyStr)
        | _ => some []
      let region ← dllBuildRegion entry
      let provenance : ExtractionProvenance :=
        { parser := "databricks_llm_image", method := some "vision_description",
          model := none, source := none,
          page_span := region.map (fun r => [r.page]), metadata := [] }
      let signal : ConfidenceSignal :=
        { source := "databricks_llm_image", confidence := confidence,
          method := some "vision_description", model := none, weight := none,
          metadata := [] }
      pure (some
        { description := pyStr description, confidence := confidence,
          region := region, tags := tags, provenance := some provenance,
          confidence_signals := [signal] })

/-- `DatabricksLLMImageAdapter._parse_visuals(payload)`: the collection loop
plus the `overall_description` fallback when the collection value is falsy. -/
def dllParseVisuals (payload : JValue) : Except String (List VisualDescription) := do
  let visualsVal :=
    ((dllGetCollection payload "visual_descriptions").getD .jnull).orElse
      (((dllGetCollection payload "visualDescriptions").getD .jnull).orElse (.jarr []))
  let entries :=
    match visualsVal with
    | .jarr xs => xs
    | _ => []
  let parsed ← entries.mapM dllParseVisual
  let results := parsed.reduceOption
  if visualsVal.truthy then pure results
  else
    let overall := (payload.getD "overall_description").orElse (payload.getD "summary")
    if overall.truthy then
      let provenance : ExtractionProvenance :=
        { parser := "databricks_llm_image", method := some "vision_description",
          model := none, source := none, page_span := none, metadata := [] }
      let signal : ConfidenceSignal :=
        { source := "databricks_llm_image", confidence := 1,
          method := some "vision_description", model := none, weight := none,
          metadata := [] }
      pure (results ++
        [{ description := pyStr overall, confidence := 1, region := none,
           tags := none, provenance := some provenance,
           confidence_signals := [signal] }])
    else pure results

/-- `DatabricksLLMImageAdapter._derive_page_segments(text_spans, payload)`
(the insertion-ordered `seen` dict becomes an ordered list of first-seen
page numbers). -/
def dllDeriveSegments (spans : List CanonicalTextSpan) (payload : JValue) :
    Except String (List PageSegment) := do
  let seen := spans.foldl (fun (seen : List ℤ) s =>
    match s.region with
    | none => seen
    | some r => if seen.contains r.page then seen else seen ++ [r.page]) []
  if seen.isEmpty then do
    let default_page ← pyIntE ((payload.getD "page").orElse (.jnum 1))
    pure [{ page_number := default_page, parser := "databricks_llm_image",
            method := some "vision", confidence := none, metadata := [] }]
  else
    pure (seen.map (fun p =>
      { page_number := p, parser := "databricks_llm_image",
        method := some "vision", confidence := none, metadata := [] }))

/-- `DatabricksLLMImageAdapter.transform(...)`.  The `_coerce_payload`
branch that `json.loads`-parses a string payload is not modelled (no claim
feeds a string payload); it is rendered as an error. -/
def dllImageTransform (payload : JValue)
    (document_id source_uri checksum : String)
    (metadata : List (String × JValue)) : Except String CanonicalDocument := do
  let payloadObj ←
    match payload with
    | .jnull => throw "Databricks LLM payload is empty"
    | .jstr _ => throw "string payload parsing not modelled"
    | .jobj kvs => pure (JValue.jobj kvs)
    | _ => throw "Databricks LLM payload must be a mapping"
  let spansVal :=
    ((dllGetCollection payloadObj "text_spans").getD .jnull).orElse
      (((dllGetCollection payloadObj "textSegments").getD .jnull).orElse (.jarr []))
  let spanEntries :=
    match spansVal with
    | .jarr xs => xs
    | _ => []
  let parsedSpans ← spanEntries.enum.mapM (fun ix => dllParseSpan ix.1 ix.2)
  let text_spans := parsedSpans.reduceOption
  let fieldsVal := ((dllGetCollection payloadObj "fields").getD .jnull).orElse (.jarr [])
  let fieldEntries :=
    match fieldsVal with
    | .jarr xs => xs
    | _ => []
  let parsedFields ← fieldEntries.mapM dllParseField
  let dllFields := parsedFields.reduceOption
  let visuals ← dllParseVisuals payloadObj
  let page_segments ← dllDeriveSegments text_spans payloadObj
  let metadata_payload := dictMerge [("provider", .jstr "databricks_llm_image")] metadata
  let overall := (payloadObj.getD "overall_description").orElse (payloadObj.getD "summary")
  let metadata_payload :=
    if overall.truthy && !(JValue.jobj metadata_payload).hasKey "overall_description" then
      dictSet metadata_payload "overall_description" overall
    else metadata_payload
  let dt := (mdGetD metadata_payload "document_type").orElse (.jstr "image")
  let mime := (mdGetD metadata_payload "mime_type").orElse
    ((mdGetD metadata_payload "content_type").orElse (.jstr "image"))
  pure (.mk document_id source_uri checksum text_spans [] dllFields visuals
    page_segments [] [] [] (some (pyStr dt)) (some (pyStr mime))
    SCHEMA_VERSION metadata_payload)

/-! ## Multi-parser ensemble adapter (parsers/adapters/multi_parser.py) -/

/-- A registered sub-adapter: payload, document_id, source_uri, checksum and
metadata to a canonical document (or an `AdapterError`). -/
abbrev AdapterFn :=
  JValue → String → String → String → List (String × JValue) →
    Except String CanonicalDocument

/-- One entry of `MultiParserAdapter._parse_additional_attachments`
(`none` models `continue`). -/
def multiParseExtraAttachment (attachment : JValue) : Option DocumentAttachment :=
  if !attachment.isObj then none
  else
    let attachment_id := (attachment.getD "attachment_id").orElse (attachment.getD "id")
    let file_name := (attachment.getD "file_name").orElse (attachment.getD "name")
    let mime := (attachment.getD "mime_type").orElse (attachment.getD "content_type")
    if !attachment_id.truthy || !file_name.truthy || !mime.truthy then none
    else
      let md :=
        match (attachment.getD "metadata").orElse (.jobj []) with
        | .jobj kvs => kvs
        | _ => []
      let md :=
        match attachment.getD "canonical_document" with
        | .jnull => md
        | v => dictMerge md [("canonical_document", v)]
      some (.mk (pyStr attachment_id) (pyStr file_name) (pyStr mime)
        (jstrOpt (attachment.getD "checksum"))
        (jstrOpt (attachment.getD "source_uri")) none md)

/-- `MultiParserAdapter._parse_additional_attachments(attachments)`. -/
def multiParseAdditionalAttachments (attachments : JValue) :
    List DocumentAttachment :=
  if !attachments.truthy then []
  else
    match attachments with
    | .jarr xs => xs.filterMap multiParseExtraAttachment
    | _ => []

/-- Accumulator of the entry loop in `MultiParserAdapter.transform`. -/
structure MultiAccum where
  text_spans : List CanonicalTextSpan
  tables : List CanonicalTable
  fields : List StructuredField
  visuals : List VisualDescription
  segments : List PageSegment
  attachments : List DocumentAttachment
  summaries : List DocumentSummary
  parsers_used : List String
  document_type : Option String
  mime_type : Option String

/-- One iteration of the entry loop in `MultiParserAdapter.transform`:
non-dict entries are skipped, a falsy name or unregistered adapter raises
`AdapterError`, the named sub-adapter runs on the entry payload with the
shared metadata updated by the entry metadata, and its outputs are appended;
`parsers_used` records `canonical.metadata.get("provider") or name`. -/
def multiStep (adapters : List (String × AdapterFn))
    (document_id source_uri checksum : String)
    (shared_metadata : List (String × JValue)) (acc : MultiAccum)
    (entry : JValue) : Except String MultiAccum := do
  if !entry.isObj then pure acc
  else
    let name := entry.getD "name"
    if !name.truthy then throw "Each parser entry must include a name"
    else
      match (adapters.find? (fun kv => kv.1 = pyStr name)).map (·.2) with
      | none => throw ("No adapter registered for parser " ++ pyStr name)
      | some adapter => do
          let entry_payload := entry.getD "payload"
          let entry_metadata ←
            match (entry.getD "metadata").orElse (.jobj []) with
            | .jobj kvs => pure kvs
            | _ => throw "TypeError: entry metadata is not a mapping"
          let sub_metadata := dictMerge shared_metadata entry_metadata
          let canonical ← adapter entry_payload document_id source_uri checksum sub_metadata
          let provider := mdGetD canonical.metadata "provider"
          pure { text_spans := acc.text_spans ++ canonical.text_spans
                 tables := acc.tables ++ canonical.tables
                 fields := acc.fields ++ canonical.fields
                 visuals := acc.visuals ++ canonical.visual_descriptions
                 segments := acc.segments ++ canonical.page_segments
                 attachments := acc.attachments ++ canonical.attachments
                 summaries := acc.summaries ++ canonical.summaries
                 parsers_used := acc.parsers_used ++ [pyStr (provider.orElse name)]
                 document_type :=
                   if acc.document_type = none ∧ canonical.document_type ≠ none then
                     canonical.document_type
                   else acc.document_type
                 mime_type :=
                   if acc.mime_type = none ∧ canonical.mime_type ≠ none then
                     canonical.mime_type
                   else acc.mime_type }

/-- `MultiParserAdapter.transform(payload, document_id=..., ...)`. -/
def multiParserTransform (adapters : List (String × AdapterFn))
    (payload : JValue) (document_id source_uri checksum : String)
    (metadata : List (String × JValue)) : Except String CanonicalDocument := do
  let payload_dict ← ensureMapping payload
    "MultiParser payload is empty" "MultiParser payload must be a mapping"
  let payloadObj := JValue.jobj payload_dict
  let parser_payloads ←
    match payloadObj.get "parsers" with
    | some (.jarr xs) =>
        if xs.isEmpty then
          throw "MultiParser payload must contain a non-empty parsers list"
        else pure xs
    | _ => throw "MultiParser payload must contain a non-empty parsers list"
  let shared0 ←
    match (payloadObj.getD "document_metadata").orElse (.jobj []) with
    | .jobj kvs => pure kvs
    | _ => throw "TypeError: document_metadata is not a mapping"
  let shared_metadata := if metadata.isEmpty then shared0 else dictMerge shared0 metadata
  let init : MultiAccum :=
    { text_spans := [], tables := [], fields := [], visuals := [],
      segments := [], attachments := [], summaries := [], parsers_used := [],
      document_type := jstrOpt (mdGetD shared_metadata "document_type"),
      mime_type := jstrOpt (mdGetD shared_metadata "mime_type") }
  let acc ← parser_payloads.foldlM
    (multiStep adapters document_id source_uri checksum shared_metadata) init
  let attachments := acc.attachments ++
    multiParseAdditionalAttachments (payloadObj.getD "attachments")
  let metadata_payload := dictMerge [("provider", .jstr "multi_parser")] shared_metadata
  let metadata_payload :=
    if acc.parsers_used.isEmpty then metadata_payload
    else dictSet metadata_payload "parsers_used" (.jarr (acc.parsers_used.map .jstr))
  pure (.mk document_id source_uri checksum acc.text_spans acc.tables
    acc.fields acc.visuals acc.segments attachments acc.summaries []
    acc.document_type acc.mime_type SCHEMA_VERSION metadata_payload)

/-- The sub-documents an ensemble payload dispatches to, paired with the
raw entry name: the specification-level reading of the entry loop used to
state the merge theorem. -/
def multiSubDocs (adapters : List (String × AdapterFn))
    (document_id source_uri checksum : String)
    (shared_metadata : List (String × JValue)) :
    List JValue → Except String (List (JValue × CanonicalDocument))
  | [] => pure []
  | entry :: rest => do
      if !entry.isObj then
        multiSubDocs adapters document_id source_uri checksum shared_metadata rest
      else
        let name := entry.getD "name"
        if !name.truthy then throw "Each parser entry must include a name"
        else
          match (adapters.find? (fun kv => kv.1 = pyStr name)).map (·.2) with
          | none => throw ("No adapter registered for parser " ++ pyStr name)
          | some adapter => do
              let entry_metadata ←
                match (entry.getD "metadata").orElse (.jobj []) with
                | .jobj kvs => pure kvs
                | _ => throw "TypeError: entry metadata is not a mapping"
              let canonical ← adapter (entry.getD "payload") document_id
                source_uri checksum (dictMerge shared_metadata entry_metadata)
              let others ← multiSubDocs adapters document_id source_uri checksum
                shared_metadata rest
              pure ((name, canonical) :: others)

/-- The `parsers_used` list recorded in a document's metadata. -/
def parsersUsedOf (d : CanonicalDocument) : List String :=
  match mdGet d.metadata "parsers_used" with
  | some (.jarr vs) =>
      vs.filterMap (fun v =>
        match v with
        | .jstr s => some s
        | _ => none)
  | _ => []

/-- The provider stamp of a document's metadata (`None` when absent). -/
def providerOf (d : CanonicalDocument) : JValue := mdGetD d.metadata "provider"

/-! ## Null-free input predicates for the serialisation contract.

`to_dict` copies embedded metadata dicts verbatim and always emits
`StructuredField.value`; these predicates delimit the inputs on which the
output can be null-free. -/

/-- Inputs of a confidence signal carry no nulls. -/
def sigInputsOk (s : ConfidenceSignal) : Bool := jobjNoNulls s.metadata

/-- Inputs of a provenance stamp carry no nulls. -/
def provInputsOk (p : ExtractionProvenance) : Bool := jobjNoNulls p.metadata

/-- Inputs of a text span carry no nulls. -/
def spanInputsOk (s : CanonicalTextSpan) : Bool :=
  s.confidence_signals.all sigInputsOk &&
    (match s.provenance with
     | some p => provInputsOk p
     | none => true)

/-- Inputs of a visual description carry no nulls. -/
def visInputsOk (v : VisualDescription) : Bool :=
  v.confidence_signals.all sigInputsOk &&
    (match v.provenance with
     | some p => provInputsOk p
     | none => true)

/-- Inputs of a table cell carry no nulls. -/
def cellInputsOk (c : CanonicalTableCell) : Bool :=
  c.confidence_signals.all sigInputsOk &&
    (match c.provenance with
     | some p => provInputsOk p
     | none => true)

/-- Inputs of a table carry no nulls. -/
def tableInputsOk (t : CanonicalTable) : Bool :=
  t.cells.all cellInputsOk &&
    (match t.provenance with
     | some p => provInputsOk p
     | none => true)

/-- Inputs of a structured field carry no nulls and its value is set. -/
def fieldInputsOk (f : StructuredField) : Bool :=
  f.value.isSome && f.confidence_signals.all sigInputsOk &&
    (match f.provenance with
     | some p => provInputsOk p
     | none => true)

/-- Inputs of a page segment carry no nulls. -/
def segInputsOk (p : PageSegment) : Bool := jobjNoNulls p.metadata

/-- Inputs of a summary carry no nulls. -/
def sumInputsOk (s : DocumentSummary) : Bool := jobjNoNulls s.metadata

/-- Inputs of an enrichment carry no nulls. -/
def enrInputsOk (e : DocumentEnrichment) : Bool :=
  jobjNoNulls e.content && jobjNoNulls e.metadata

mutual
/-- Every structured-field value in the document tree is set and every
embedded metadata dict is null-free. -/
def docInputsOk : CanonicalDocument → Bool
  | .mk _ _ _ ts tb fs vs ps atts sums enrs _ _ _ md =>
      jobjNoNulls md && ts.all spanInputsOk && tb.all tableInputsOk &&
        fs.all fieldInputsOk && vs.all visInputsOk && ps.all segInputsOk &&
        attachListInputsOk atts && sums.all sumInputsOk && enrs.all enrInputsOk

/-- `docInputsOk` over a list of attachments. -/
def attachListInputsOk : List DocumentAttachment → Bool
  | [] => true
  | a :: rest => attachInputsOk a && attachListInputsOk rest

/-- `docInputsOk` for an attachment and its child document. -/
def attachInputsOk : DocumentAttachment → Bool
  | .mk _ _ _ _ _ doc md =>
      jobjNoNulls md &&
        (match doc with
         | some d => docInputsOk d
         | none => true)
end

/-! ## Specification-side definitions and concrete fixtures -/

/-- The categorisation cascade exactly as the specification words it, with
the default thresholds (spec 4.E step 4). -/
def categoriseSpec (profile : DocumentProfile) : DocumentCategory :=
  if profile.page_count = 0 then .unknown
  else if profile.scanned_page_frac ≥ 1/2 then .scanned
  else if profile.table_page_frac ≥ 3/10 then .table_heavy
  else if profile.form_page_frac ≥ 1/4 then .form_heavy
  else if profile.page_count ≥ 100 then .long_form
  else if profile.page_count ≤ 15 ∧ profile.average_text_density ≥ 11/20 then
    .short_form
  else .unknown

/-- The per-category max-pages cap consulted by `_determine_strategy`
(set for short_form, long_form, table_heavy, form_heavy only). -/
def categoryCap (cfg : RouterConfig) : DocumentCategory → Option ℤ
  | .short_form => cfg.short_form_max_pages
  | .long_form => cfg.long_form_max_pages
  | .table_heavy => cfg.table_heavy_max_pages
  | .form_heavy => cfg.form_max_pages
  | _ => none

/-- A descriptor whose metadata layout supplies a page text density of 2,
outside [0,1]. -/
def c3Descriptor : DocumentDescriptor :=
  { object_key := "doc.bin", bucket := none
    body := .jobj [("documentMetadata", .jobj
      [("layout", .jobj [("pages", .jarr [.jobj [("textDensity", .jnum 2)]])])])]
    mime_type := "application/octet-stream", request_override := none }

/-- A one-page profile with scanned and table page fractions both 1. -/
def c4Profile : DocumentProfile :=
  { object_key := "scan.pdf", bucket := none
    mime_type := "application/pdf", page_count := 1, pages := []
    average_text_density := 0, average_image_density := 1
    table_page_frac := 1, scanned_page_frac := 1, checkbox_page_frac := 0
    radio_button_page_frac := 0, form_page_frac := 0, total_tables := 1
    total_checkboxes := 0, total_radio_buttons := 0 }

/-- Config for the override-precedence scenario: static mode with static
strategy "C" and category default "D". -/
def c5Config : RouterConfig :=
  { mode := .static
    request_override_flag := "parser_override"
    default_strategy_map :=
      [(.unknown, { name := "D", model := none, max_pages := none })]
    fallback_strategy := { name := "D", model := none, max_pages := none }
    static_strategy := some { name := "C", model := none, max_pages := none }
    scanned_page_frac_threshold := 1/2
    table_page_frac_threshold := 3/10
    form_page_frac_threshold := 1/4
    short_form_min_text_density := 11/20
    long_form_threshold := 100
    short_form_threshold := 15
    short_form_max_pages := none
    long_form_max_pages := none
    table_heavy_max_pages := none
    form_max_pages := none }

/-- A profile with three mostly-text pages (used where only page count
matters). -/
def c5Profile : DocumentProfile :=
  { object_key := "contract.pdf", bucket := none
    mime_type := "application/pdf", page_count := 3, pages := []
    average_text_density := 7/10, average_image_density := 0
    table_page_frac := 0, scanned_page_frac := 0, checkbox_page_frac := 0
    radio_button_page_frac := 0, form_page_frac := 0, total_tables := 0
    total_checkboxes := 0, total_radio_buttons := 0 }

/-- Descriptor carrying the request override "A". -/
def c5Descriptor : DocumentDescriptor :=
  { object_key := "contract.pdf", bucket := none
    body := .jobj [("parser_override", .jstr "A")]
    mime_type := "application/pdf"
    request_override := some (.jstr "A") }

/-- A pattern override selecting "B" that matches `contract.pdf`. -/
def c5Overrides : OverrideSet :=
  { pattern_overrides :=
      [{ pattern := "contract", search := fun key => key = "contract.pdf"
         strategy := { name := "B", model := none, max_pages := none } }] }

/-- Hybrid config whose short-form max-pages cap is 0 (a set cap that
Python truthiness treats as absent). -/
def c5ZeroCapConfig : RouterConfig :=
  { c5Config with
      mode := .hybrid
      static_strategy := none
      default_strategy_map :=
        [(.short_form, { name := "S", model := none, max_pages := none }),
         (.unknown, { name := "D", model := none, max_pages := none })]
      short_form_max_pages := some 0 }

/-- A one-page descriptor with no override. -/
def c5PlainDescriptor : DocumentDescriptor :=
  { object_key := "memo.pdf", bucket := none, body := .jobj []
    mime_type := "application/pdf", request_override := none }

/-- A one-page short-form profile. -/
def c5OnePageProfile : DocumentProfile :=
  { c5Profile with object_key := "memo.pdf", page_count := 1 }

/-- Body with a routing sub-object lacking the flag and an overrides
sub-object carrying it. -/
def c6Body : JValue :=
  .jobj [("routing", .jobj [("x", .jnum 1)]),
         ("overrides", .jobj [("parser_override", .jstr "A")])]

/-- Registry for the ensemble scenario: the PyMuPDF adapter under "pdf" and
the Databricks LLM image adapter under "llm". -/
def c7Adapters : List (String × AdapterFn) :=
  [("pdf", pymupdfTransform), ("llm", dllImageTransform)]

/-- The ensemble scenario payload: entry "pdf" with one span "A", then
entry "llm" with one span "B". -/
def c7Payload : JValue :=
  .jobj [("parsers", .jarr
    [.jobj [("name", .jstr "pdf"),
            ("payload", .jobj [("pages", .jarr
              [.jobj [("page_number", .jnum 1),
                      ("text_spans", .jarr [.jobj [("content", .jstr "A")]])]])])],
     .jobj [("name", .jstr "llm"),
            ("payload", .jobj [("text_spans", .jarr
              [.jobj [("content", .jstr "B")]])])]])]

/-- An empty canonical document used as a fallback placeholder. -/
def emptyCanonicalDocument : CanonicalDocument :=
  .mk "" "" "" [] [] [] [] [] [] [] [] none none SCHEMA_VERSION []

/-- The document produced by the ensemble scenario. -/
def c7Doc : CanonicalDocument :=
  (multiParserTransform c7Adapters c7Payload "combo-1" "dbfs:/docs/combo.pdf"
    "combo-checksum" []).toOption.getD emptyCanonicalDocument

/-- A canonical document holding one structured field whose value is null
and nothing else. -/
def c8Doc : CanonicalDocument :=
  .mk "doc-1" "s3://b/d.pdf" "cs" [] []
    [{ name := "Total", value := none, confidence := 1/2, value_type := none,
       region := none, provenance := none, confidence_signals := [] }]
    [] [] [] [] [] none none SCHEMA_VERSION []

/-- Degenerate workflow collaborators for concrete runs: a deterministic
checksum, a vendor analyse that returns an empty payload, an adapter that
emits an empty document carrying the given ids, no summaries, no
enrichments, no email children. -/
def trivialEnv : WorkflowEnv :=
  { checksumFn := fun bytes => String.intercalate "." (bytes.map toString)
    analyze := fun _ => .ok (.jobj [])
    transform := fun _ did suri csum md =>
      .mk did suri csum [] [] [] [] [] [] [] [] none none SCHEMA_VERSION md
    summarise := fun _ => []
    attachChildren := fun c _ _ _ => c
    hasEnrichmentDispatcher := false
    enrich := fun _ _ => []
    denormRecords := fun _ => [] }

/-- A batch holding one message without any object key and one with one. -/
def c2Messages : List SqsMessage :=
  [{ message_id := "m1", receipt_handle := "rh1"
     body := .jobj [("TopicArn", .jstr "t")] },
   { message_id := "m2", receipt_handle := "rh2"
     body := .jobj [("object_key", .jstr "a.pdf")] }]

/-- The `parsers` list an ensemble payload dispatches on (the extraction at
the top of `MultiParserAdapter.transform`). -/
def multiEntriesOf (payload : JValue) : Except String (List JValue) := do
  let payload_dict ← ensureMapping payload
    "MultiParser payload is empty" "MultiParser payload must be a mapping"
  match (JValue.jobj payload_dict).get "parsers" with
  | some (.jarr xs) =>
      if xs.isEmpty then
        throw "MultiParser payload must contain a non-empty parsers list"
      else pure xs
  | _ => throw "MultiParser payload must contain a non-empty parsers list"

/-- The shared metadata an ensemble run threads to its sub-adapters. -/
def multiSharedOf (payload : JValue) (metadata : List (String × JValue)) :
    Except String (List (String × JValue)) := do
  let payload_dict ← ensureMapping payload
    "MultiParser payload is empty" "MultiParser payload must be a mapping"
  let shared0 ←
    match ((JValue.jobj payload_dict).getD "document_metadata").orElse (.jobj []) with
    | .jobj kvs => pure kvs
    | _ => throw "TypeError: document_metadata is not a mapping"
  pure (if metadata.isEmpty then shared0 else dictMerge shared0 metadata)

/-- The payload-level extra attachments of an ensemble payload. -/
def multiExtraAttachmentsOf (payload : JValue) : List DocumentAttachment :=
  multiParseAdditionalAttachments (payload.getD "attachments")

/-! ## Theorems -/

/-- Claim C4: with the default thresholds, categorisation follows the fixed
first-match cascade of the spec (page_count 0 → unknown; scanned ≥ 0.5 →
scanned; table ≥ 0.3 → table_heavy; form ≥ 0.25 → form_heavy; ≥ 100 pages →
long_form; ≤ 15 pages and text density ≥ 0.55 → short_form; else unknown),
and a one-page profile with scanned and table fractions both 1 is
categorised scanned. -/
theorem C4_categorise_matches_spec_cascade :
    (∀ p : DocumentProfile, categorise defaultRouterConfig p = categoriseSpec p)
    ∧ categorise defaultRouterConfig c4Profile = .scanned := by
  constructor
  · intro p
    rfl
  · with_unfolding_all rfl

/-- Claim C10 (amended statement is the claim itself; confirmed): for a
non-empty metrics list the built profile's table page fraction counts pages
with table density ≥ 0.5 or a positive table count, the scanned fraction
counts pages with image density ≥ 0.6 or more than two images, the form
fraction counts pages with a checkbox or radio button, the averages are
arithmetic means, the totals are sums, and the page count is the list
length; for an empty list every fraction and average is 0. -/
theorem C10_build_profile_aggregates :
    (∀ (d : DocumentDescriptor) (metrics : List PageMetrics), metrics ≠ [] →
      (buildProfile d metrics).table_page_frac =
          ((metrics.countP (fun p => p.table_density ≥ 1/2 || p.table_count > 0) : ℕ) : ℚ) /
            (metrics.length : ℚ)
        ∧ (buildProfile d metrics).scanned_page_frac =
            ((metrics.countP (fun p => p.image_density ≥ 3/5 || p.image_count > 2) : ℕ) : ℚ) /
              (metrics.length : ℚ)
        ∧ (buildProfile d metrics).form_page_frac =
            ((metrics.countP (fun p => p.checkbox_count > 0 || p.radio_button_count > 0) : ℕ) : ℚ) /
              (metrics.length : ℚ)
        ∧ (buildProfile d metrics).average_text_density =
            (metrics.map (·.text_density)).sum / (metrics.length : ℚ)
        ∧ (buildProfile d metrics).average_image_density =
            (metrics.map (·.image_density)).sum / (metrics.length : ℚ)
        ∧ (buildProfile d metrics).total_tables = (metrics.map (·.table_count)).sum
        ∧ (buildProfile d metrics).total_checkboxes = (metrics.map (·.checkbox_count)).sum
        ∧ (buildProfile d metrics).total_radio_buttons = (metrics.map (·.radio_button_count)).sum
        ∧ (buildProfile d metrics).page_count = (metrics.length : ℤ))
    ∧ (∀ d : DocumentDescriptor,
        (buildProfile d []).table_page_frac = 0
        ∧ (buildProfile d []).scanned_page_frac = 0
        ∧ (buildProfile d []).checkbox_page_frac = 0
        ∧ (buildProfile d []).radio_button_page_frac = 0
        ∧ (buildProfile d []).form_page_frac = 0
        ∧ (buildProfile d []).average_text_density = 0
        ∧ (buildProfile d []).average_image_density = 0) := by
  constructor
  · intro d metrics h
    have hne : metrics.isEmpty = false := by
      simpa [List.isEmpty_iff] using h
    have hlen : metrics.length ≠ 0 := by
      simpa [List.length_eq_zero] using h
    refine ⟨?_, ?_, ?_, ?_, ?_, ?_, ?_, ?_, ?_⟩ <;>
      simp [buildProfile, listMean, hne, hlen, h]
  · intro d
    refine ⟨?_, ?_, ?_, ?_, ?_, ?_, ?_⟩ <;> simp [buildProfile, listMean]

/-- Witness for C10 at a concrete one-page metrics list. -/
theorem C10_build_profile_aggregates_witness :
    (buildProfile c5PlainDescriptor
      [{ index := 0, text_density := 1/2, image_density := 1/2,
         table_density := 1, char_count := none, table_count := 1,
         image_count := 0, checkbox_count := 0, radio_button_count := 0 }]).table_page_frac =
      (([{ index := 0, text_density := 1/2, image_density := 1/2,
           table_density := 1, char_count := none, table_count := 1,
           image_count := 0, checkbox_count := 0,
           radio_button_count := 0 : PageMetrics }].countP
          (fun p => p.table_density ≥ 1/2 || p.table_count > 0) : ℕ) : ℚ) / 1 :=
  by
    have h := (C10_build_profile_aggregates.1 c5PlainDescriptor
      [{ index := 0, text_density := 1/2, image_density := 1/2,
         table_density := 1, char_count := none, table_count := 1,
         image_count := 0, checkbox_count := 0, radio_button_count := 0 }]
      (by simp)).1
    simpa using h

/-- Claim C2: a message whose body lacks every object-key candidate is
skipped from routing, but its receipt handle was collected before the loop
and `delete_messages` receives the handles of ALL received messages, so the
skipped message is acknowledged and deleted along with its siblings — the
code contradicts the specified leave-on-queue policy.  Concretely, in a
batch where message m1 has no object key we find m1 skipped yet rh1 in the
deleted handles. -/
theorem C2_skipped_messages_are_still_batch_deleted :
    (∀ messages : List SqsMessage,
      (processBatchSkeleton messages).deleted_receipt_handles =
        messages.map (·.receipt_handle))
    ∧ (processBatchSkeleton c2Messages).skipped_message_ids = ["m1"]
    ∧ (processBatchSkeleton c2Messages).deleted_receipt_handles = ["rh1", "rh2"]
    ∧ "rh1" ∈ (processBatchSkeleton c2Messages).deleted_receipt_handles := by
  refine ⟨fun _ => rfl, rfl, rfl, ?_⟩
  simp [processBatchSkeleton, c2Messages]

/-- Claim C1: when the store already has `(document_id, checksum)` and
`force` is false, the databricks workflow returns the skipped result as the
claim states, but the idp_service workflow's dedup branch raises `TypeError`
(it passes `raw_result` to a `WorkflowResult` that has no such field)
instead of returning `{document: nil, skipped: true}`. -/
theorem C1_idp_dedup_branch_raises_instead_of_skipping :
    (∀ (env : WorkflowEnv) (store : StoreState) (document_id : String)
        (document_bytes : List ℕ) (source_uri : String)
        (metadata : List (String × JValue)),
      storeHasRecord store document_id (env.checksumFn document_bytes) = true →
        dbxProcess env store document_id document_bytes source_uri metadata false =
            .ok ({ document := none, skipped := true }, store)
          ∧ idpProcess env store document_id document_bytes source_uri metadata false none =
              .error "TypeError: WorkflowResult got an unexpected keyword argument raw_result")
    ∧ (dbxProcess trivialEnv [] "doc-1" [1, 2, 3] "s3://b/doc.pdf" [] false).map
        (fun r => (r.1.skipped, r.2)) = .ok (false, [("doc-1", "1.2.3")])
    ∧ (dbxProcess trivialEnv [("doc-1", "1.2.3")] "doc-1" [1, 2, 3] "s3://b/doc.pdf" []
        false).map (fun r => (r.1.skipped, r.1.document.isNone)) = .ok (true, true)
    ∧ (dbxProcess trivialEnv [("doc-1", "1.2.3")] "doc-1" [1, 2, 3] "s3://b/doc.pdf" []
        true).map (fun r => r.1.skipped) = .ok false
    ∧ idpProcess trivialEnv [("doc-1", "1.2.3")] "doc-1" [1, 2, 3] "s3://b/doc.pdf" []
        false none =
        .error "TypeError: WorkflowResult got an unexpected keyword argument raw_result" := by
  refine ⟨?_, rfl, rfl, rfl, rfl⟩
  intro env store document_id document_bytes source_uri metadata h
  constructor
  · simp [dbxProcess, h]
    rfl
  · simp [idpProcess, h]
    rfl

/-- Witness for C1 at the concrete duplicate call. -/
theorem C1_idp_dedup_branch_raises_witness :
    dbxProcess trivialEnv [("doc-1", "1.2.3")] "doc-1" [1, 2, 3] "s3://b/doc.pdf" [] false =
        .ok ({ document := none, skipped := true }, [("doc-1", "1.2.3")])
      ∧ idpProcess trivialEnv [("doc-1", "1.2.3")] "doc-1" [1, 2, 3] "s3://b/doc.pdf" []
          false none =
          .error "TypeError: WorkflowResult got an unexpected keyword argument raw_result" :=
  C1_idp_dedup_branch_raises_instead_of_skipping.1 trivialEnv [("doc-1", "1.2.3")]
    "doc-1" [1, 2, 3] "s3://b/doc.pdf" [] rfl

/-- A count-based page fraction lies in [0,1]. -/
theorem countFrac_unit (metrics : List PageMetrics) (p : PageMetrics → Bool) :
    0 ≤ (if metrics.isEmpty then (0:ℚ)
         else ((metrics.countP p : ℕ) : ℚ) / (metrics.length : ℚ))
    ∧ (if metrics.isEmpty then (0:ℚ)
       else ((metrics.countP p : ℕ) : ℚ) / (metrics.length : ℚ)) ≤ 1 := by
  by_cases h : metrics.isEmpty
  · simp [h]
  · have hne : metrics ≠ [] := by simpa [List.isEmpty_iff] using h
    have hpos : 0 < (metrics.length : ℚ) := by
      exact_mod_cast List.length_pos.mpr hne
    simp only [h, if_false, Bool.false_eq_true]
    constructor
    · exact div_nonneg (by positivity) hpos.le
    · rw [div_le_one hpos]
      exact_mod_cast List.countP_le_length p

/-- The mean of a list of values in [0,1] lies in [0,1]. -/
theorem listMean_unit (l : List ℚ) (h : ∀ x ∈ l, 0 ≤ x ∧ x ≤ 1) :
    0 ≤ listMean l ∧ listMean l ≤ 1 := by
  unfold listMean
  by_cases hl : l.isEmpty
  · simp [hl]
  · have hne : l ≠ [] := by simpa [List.isEmpty_iff] using hl
    have hpos : 0 < (l.length : ℚ) := by
      exact_mod_cast List.length_pos.mpr hne
    simp only [hl, if_false, Bool.false_eq_true]
    constructor
    · exact div_nonneg (List.sum_nonneg fun x hx => (h x hx).1) hpos.le
    · rw [div_le_one hpos]
      calc l.sum ≤ l.length • (1 : ℚ) :=
            List.sum_le_card_nsmul l 1 (fun x hx => (h x hx).2)
        _ = (l.length : ℚ) := by simp

/-- Claim C3 counterexample: the heuristic analyser passes a metadata text
density of 2 straight through — the produced page metric and the profile
average both equal 2, outside [0,1]. -/
theorem C3_counterexample_metadata_density_unclamped :
    (heuristicAnalyse c3Descriptor).map
        (fun p => (p.pages.map (·.text_density), p.average_text_density)) =
      .ok ([2], 2)
    ∧ ¬ ((2 : ℚ) ≤ 1) := by
  constructor
  · with_unfolding_all rfl
  · norm_num

/-- Claim C3 amended: every page-fraction field of any built profile lies
in [0,1], the average densities lie in [0,1] whenever the per-page
densities do, and the email structural analyser's page metrics (HTML and
plain text) always clamp their densities to [0,1]; densities taken from
message metadata or model payloads are passed through unclamped (see the
counterexample). -/
theorem C3_fraction_fields_unit_and_structural_densities_clamped :
    (∀ (d : DocumentDescriptor) (metrics : List PageMetrics),
      (0 ≤ (buildProfile d metrics).table_page_frac
          ∧ (buildProfile d metrics).table_page_frac ≤ 1)
        ∧ (0 ≤ (buildProfile d metrics).scanned_page_frac
            ∧ (buildProfile d metrics).scanned_page_frac ≤ 1)
        ∧ (0 ≤ (buildProfile d metrics).checkbox_page_frac
            ∧ (buildProfile d metrics).checkbox_page_frac ≤ 1)
        ∧ (0 ≤ (buildProfile d metrics).radio_button_page_frac
            ∧ (buildProfile d metrics).radio_button_page_frac ≤ 1)
        ∧ (0 ≤ (buildProfile d metrics).form_page_frac
            ∧ (buildProfile d metrics).form_page_frac ≤ 1))
    ∧ (∀ (d : DocumentDescriptor) (metrics : List PageMetrics),
        (∀ p ∈ metrics, 0 ≤ p.text_density ∧ p.text_density ≤ 1) →
          0 ≤ (buildProfile d metrics).average_text_density
            ∧ (buildProfile d metrics).average_text_density ≤ 1)
    ∧ (∀ (d : DocumentDescriptor) (metrics : List PageMetrics),
        (∀ p ∈ metrics, 0 ≤ p.image_density ∧ p.image_density ≤ 1) →
          0 ≤ (buildProfile d metrics).average_image_density
            ∧ (buildProfile d metrics).average_image_density ≤ 1)
    ∧ (∀ (index : ℤ) (text : String) (tc ic cc rc : ℕ),
        (0 ≤ (emailHtmlBuildMetrics index text tc ic cc rc).text_density
            ∧ (emailHtmlBuildMetrics index text tc ic cc rc).text_density ≤ 1)
          ∧ (0 ≤ (emailHtmlBuildMetrics index text tc ic cc rc).image_density
              ∧ (emailHtmlBuildMetrics index text tc ic cc rc).image_density ≤ 1)
          ∧ (0 ≤ (emailHtmlBuildMetrics index text tc ic cc rc).table_density
              ∧ (emailHtmlBuildMetrics index text tc ic cc rc).table_density ≤ 1))
    ∧ (∀ (text : String) (index : ℤ),
        (0 ≤ (metricsFromPlainText text index).text_density
            ∧ (metricsFromPlainText text index).text_density ≤ 1)
          ∧ (0 ≤ (metricsFromPlainText text index).image_density
              ∧ (metricsFromPlainText text index).image_density ≤ 1)
          ∧ (metricsFromPlainText text index).table_density = 0) := by
  refine ⟨?_, ?_, ?_, ?_, ?_⟩
  · intro d metrics
    refine ⟨?_, ?_, ?_, ?_, ?_⟩ <;>
      simpa [buildProfile] using countFrac_unit metrics _
  · intro d metrics h
    have := listMean_unit (metrics.map (·.text_density)) (by
      intro x hx
      obtain ⟨p, hp, rfl⟩ := List.mem_map.mp hx
      exact h p hp)
    simpa [buildProfile] using this
  · intro d metrics h
    have := listMean_unit (metrics.map (·.image_density)) (by
      intro x hx
      obtain ⟨p, hp, rfl⟩ := List.mem_map.mp hx
      exact h p hp)
    simpa [buildProfile] using this
  · intro index text tc ic cc rc
    refine ⟨⟨?_, ?_⟩, ⟨?_, ?_⟩, ⟨?_, ?_⟩⟩ <;>
      simp [emailHtmlBuildMetrics] <;> positivity
  · intro text index
    refine ⟨⟨?_, ?_⟩, ⟨?_, ?_⟩, ?_⟩ <;>
      simp [metricsFromPlainText] <;> norm_num <;> positivity

/-- Witness for C3 at a concrete one-page metrics list. -/
theorem C3_fraction_fields_unit_witness :
    0 ≤ (buildProfile c5PlainDescriptor
        [{ index := 0, text_density := 1/2, image_density := 1/2,
           table_density := 0, char_count := none, table_count := 0,
           image_count := 0, checkbox_count := 0,
           radio_button_count := 0 }]).average_text_density
      ∧ (buildProfile c5PlainDescriptor
          [{ index := 0, text_density := 1/2, image_density := 1/2,
             table_density := 0, char_count := none, table_count := 0,
             image_count := 0, checkbox_count := 0,
             radio_button_count := 0 }]).average_text_density ≤ 1 :=
  C3_fraction_fields_unit_and_structural_densities_clamped.2.1
    c5PlainDescriptor _ (by norm_num)

/-- Claim C6 counterexample: with a routing sub-object present (but lacking
the flag) and an overrides sub-object carrying it, the built descriptor
carries no request override — the overrides value "A" is not used. -/
theorem C6_counterexample_routing_shadows_overrides :
    extractRequestOverride "parser_override" c6Body = none
    ∧ (none : Option JValue) ≠ some (.jstr "A") := by
  exact ⟨rfl, by simp⟩

/-- Claim C6 amended: the descriptor carries the flag's top-level value when
the flag key is at top level; otherwise the value is read from the single
block `body.routing or body.overrides` (Python `or`): `body.overrides[flag]`
is consulted only when `body.routing` is absent or falsy, and a truthy
routing block shadows the overrides block entirely. -/
theorem C6_request_override_extraction :
    (∀ (flag : String) (body : JValue), body.hasKey flag = true →
      extractRequestOverride flag body =
        (match body.getD flag with
         | .jnull => none
         | v => some v))
    ∧ (∀ (flag : String) (body : JValue), body.isObj = true →
        body.hasKey flag = false →
        extractRequestOverride flag body =
          (if ((body.getD "routing").orElse (body.getD "overrides")).isObj then
            (match ((body.getD "routing").orElse (body.getD "overrides")).getD flag with
             | .jnull => none
             | v => some v)
          else none))
    ∧ extractRequestOverride "parser_override"
        (.jobj [("overrides", .jobj [("parser_override", .jstr "A")])]) =
        some (.jstr "A")
    ∧ extractRequestOverride "parser_override" c6Body = none := by
  refine ⟨?_, ?_, rfl, rfl⟩
  · intro flag body h
    have hobj : body.isObj = true := by
      cases body <;> simp_all [JValue.hasKey, JValue.get, JValue.isObj]
    simp [extractRequestOverride, hobj, h]
  · intro flag body hobj h
    simp [extractRequestOverride, hobj, h]

/-- Witness for C6 at a concrete top-level flag. -/
theorem C6_request_override_extraction_witness :
    extractRequestOverride "parser_override"
      (.jobj [("parser_override", .jstr "X")]) = some (.jstr "X") := by
  simpa using C6_request_override_extraction.1 "parser_override"
    (.jobj [("parser_override", .jstr "X")]) rfl

/-- Every action a replay pass emits concerns one of the received
messages. -/
theorem replayBatch_action_ids (sendSucceeds : DlqMessage → Bool)
    (limit : Option ℕ) :
    ∀ (msgs : List DlqMessage) (r : ℕ) (act : ReplayAction),
      act ∈ (replayBatch sendSucceeds limit msgs r).1 →
        act.actionId ∈ msgs.map (·.message_id) := by
  intro msgs
  induction msgs with
  | nil => intro r act h; simp [replayBatch] at h
  | cons a rest ih =>
      intro r act h
      rw [replayBatch] at h
      by_cases hl : limitReached limit r
      · simp [hl] at h
      · by_cases hs : sendSucceeds a
        · simp only [hl, Bool.false_eq_true, if_false, hs, if_true,
            List.mem_cons] at h
          rcases h with rfl | rfl | h
          · simp [ReplayAction.actionId]
          · simp [ReplayAction.actionId]
          · exact List.mem_cons_of_mem _ (ih _ act h)
        · simp only [hl, Bool.false_eq_true, if_false, hs,
            List.mem_cons] at h
          rcases h with rfl | h
          · simp [ReplayAction.actionId]
          · exact List.mem_cons_of_mem _ (ih _ act h)

/-- Claim C9: in a DLQ replay pass over a received batch (no limit,
pairwise-distinct message ids), a message whose send to the target queue
succeeds contributes exactly one send followed by exactly one delete of its
receipt, and a message whose send raises contributes the failed send only —
it is never deleted, and its siblings are still processed. -/
theorem C9_dlq_replay_send_exactly_once_then_delete :
    ∀ (sendSucceeds : DlqMessage → Bool) (msgs : List DlqMessage) (r0 : ℕ)
      (m : DlqMessage), m ∈ msgs → (msgs.map (·.message_id)).Nodup →
      actionsFor (replayBatch sendSucceeds none msgs r0).1 m.message_id =
        (if sendSucceeds m then
          [.sendOk m.message_id, .deleteMsg m.message_id]
        else [.sendFailed m.message_id]) := by
  intro sendSucceeds msgs
  induction msgs with
  | nil => intro r0 m hm; simp at hm
  | cons a rest ih =>
      intro r0 m hm hnodup
      rw [List.map_cons] at hnodup
      obtain ⟨hnotin, hnodup'⟩ := List.nodup_cons.mp hnodup
      rcases List.mem_cons.mp hm with rfl | hmem
      · have htail : ∀ r', actionsFor
            (replayBatch sendSucceeds none rest r').1 m.message_id = [] := by
          intro r'
          refine List.filter_eq_nil_iff.mpr ?_
          intro act hact
          have hid := replayBatch_action_ids sendSucceeds none rest r' act hact
          simp only [decide_eq_true_eq]
          intro heq
          exact hnotin (heq ▸ hid)
        by_cases hs : sendSucceeds m
        · rw [replayBatch]
          simp only [limitReached, Bool.false_eq_true, if_false, hs, if_true]
          simpa [actionsFor, List.filter_cons, ReplayAction.actionId, hs]
            using htail (r0 + 1)
        · rw [replayBatch]
          simp only [limitReached, Bool.false_eq_true, if_false, hs]
          simpa [actionsFor, List.filter_cons, ReplayAction.actionId, hs]
            using htail r0
      · have hma : m.message_id ≠ a.message_id := by
          intro heq
          exact hnotin (heq ▸ List.mem_map.mpr ⟨m, hmem, rfl⟩)
        by_cases hs : sendSucceeds a
        · rw [replayBatch]
          simp only [limitReached, Bool.false_eq_true, if_false, hs, if_true]
          simpa [actionsFor, List.filter_cons, ReplayAction.actionId, hma.symm]
            using ih (r0 + 1) m hmem hnodup'
        · rw [replayBatch]
          simp only [limitReached, Bool.false_eq_true, if_false, hs]
          simpa [actionsFor, List.filter_cons, ReplayAction.actionId, hma.symm]
            using ih r0 m hmem hnodup'

/-- Witness for C9: a two-message batch where the second send fails — the
second message yields the failed send only (no delete). -/
theorem C9_dlq_replay_witness :
    actionsFor (replayBatch
        (fun m => m.message_id = "a") none
        [{ message_id := "a", body := "b1", receipt_handle := "r1" },
         { message_id := "b", body := "b2", receipt_handle := "r2" }] 0).1 "b" =
      [.sendFailed "b"] := by
  have h := C9_dlq_replay_send_exactly_once_then_delete
    (fun m => m.message_id = "a")
    [{ message_id := "a", body := "b1", receipt_handle := "r1" },
     { message_id := "b", body := "b2", receipt_handle := "r2" }] 0
    { message_id := "b", body := "b2", receipt_handle := "r2" }
    (by simp) (by simp)
  simpa using h

/-- Claim C5 counterexample: a set short-form max-pages cap of 0 is
exceeded by a one-page profile, yet the selection falls through to the
category default (Python truthiness treats the 0 cap as absent), not to the
fallback with reason page_threshold_exceeded. -/
theorem C5_counterexample_zero_cap_ignored :
    (resolveStrategy c5ZeroCapConfig c5OnePageProfile c5PlainDescriptor
        ⟨[]⟩ .short_form).map (fun r => (r.1.reason, r.1.name)) =
      .ok ("category_default", .jstr "S")
    ∧ categoryCap c5ZeroCapConfig .short_form = some 0
    ∧ (0 : ℤ) < c5OnePageProfile.page_count
    ∧ "category_default" ≠ "page_threshold_exceeded" := by
  refine ⟨rfl, rfl, by with_unfolding_all decide, by simp⟩

/-- The inline per-category threshold of `_determine_strategy` is
`categoryCap`. -/
theorem determineStrategy_via_cap (cfg : RouterConfig)
    (profile : DocumentProfile) (category : DocumentCategory)
    (applied : List String) :
    determineStrategy cfg profile category applied =
      (match categoryCap cfg category with
       | some t =>
           if t ≠ 0 ∧ profile.page_count > t then
             pure ({ name := .jstr cfg.fallback_strategy.name
                     reason := "page_threshold_exceeded"
                     model := cfg.fallback_strategy.model
                     max_pages := some t },
                   applied ++ ["threshold_redirect"])
           else
             match cfg.strategy_for_category category with
             | some entry =>
                 pure ({ name := .jstr entry.name
                         reason := "category_default"
                         model := entry.model
                         max_pages := entry.max_pages },
                       applied ++ ["category_default"])
             | none => throw "KeyError: unknown missing from default_strategy_map"
       | none =>
           match cfg.strategy_for_category category with
           | some entry =>
               pure ({ name := .jstr entry.name
                       reason := "category_default"
                       model := entry.model
                       max_pages := entry.max_pages },
                     applied ++ ["category_default"])
           | none => throw "KeyError: unknown missing from default_strategy_map") := by
  cases category <;> rfl

/-- Claim C5 amended: strategy selection follows the priority order
request override (when truthy) → first matching pattern override → static
mode with a static strategy → per-category max-pages cap (when set and
nonzero) exceeded by the page count → category default; and in the A/B/C/D
scenario the request override "A" wins with reason request_override. -/
theorem C5_strategy_priority_order :
    (∀ (cfg : RouterConfig) (profile : DocumentProfile)
        (descriptor : DocumentDescriptor) (overrides : OverrideSet)
        (category : DocumentCategory) (v : JValue),
      descriptor.request_override = some v → v.truthy = true →
        resolveStrategy cfg profile descriptor overrides category =
          .ok ({ name := v, reason := "request_override", model := none,
                 max_pages := none }, ["request"]))
    ∧ (∀ (cfg : RouterConfig) (profile : DocumentProfile)
        (descriptor : DocumentDescriptor) (overrides : OverrideSet)
        (category : DocumentCategory) (o : PatternOverride),
      ((descriptor.request_override).getD .jnull).truthy = false →
      overrides.pattern_overrides.find? (fun o => o.search descriptor.object_key) =
          some o →
        resolveStrategy cfg profile descriptor overrides category =
          .ok ({ name := .jstr o.strategy.name,
                 reason := "config_pattern_override",
                 model := o.strategy.model,
                 max_pages := o.strategy.max_pages }, ["pattern:" ++ o.pattern]))
    ∧ (∀ (cfg : RouterConfig) (profile : DocumentProfile)
        (descriptor : DocumentDescriptor) (overrides : OverrideSet)
        (category : DocumentCategory) (sc : StrategyConfig),
      ((descriptor.request_override).getD .jnull).truthy = false →
      overrides.pattern_overrides.find? (fun o => o.search descriptor.object_key) =
          none →
      cfg.mode = .static → cfg.static_strategy = some sc →
        resolveStrategy cfg profile descriptor overrides category =
          .ok ({ name := .jstr sc.name, reason := "config_static",
                 model := sc.model, max_pages := sc.max_pages },
               ["static_config"]))
    ∧ (∀ (cfg : RouterConfig) (profile : DocumentProfile)
        (descriptor : DocumentDescriptor) (overrides : OverrideSet)
        (category : DocumentCategory) (t : ℤ),
      ((descriptor.request_override).getD .jnull).truthy = false →
      overrides.pattern_overrides.find? (fun o => o.search descriptor.object_key) =
          none →
      (cfg.mode = .hybrid ∨ cfg.static_strategy = none) →
      categoryCap cfg category = some t → t ≠ 0 → profile.page_count > t →
        resolveStrategy cfg profile descriptor overrides category =
          .ok ({ name := .jstr cfg.fallback_strategy.name,
                 reason := "page_threshold_exceeded",
                 model := cfg.fallback_strategy.model,
                 max_pages := some t }, ["threshold_redirect"]))
    ∧ (∀ (cfg : RouterConfig) (profile : DocumentProfile)
        (descriptor : DocumentDescriptor) (overrides : OverrideSet)
        (category : DocumentCategory) (entry : StrategyConfig),
      ((descriptor.request_override).getD .jnull).truthy = false →
      overrides.pattern_overrides.find? (fun o => o.search descriptor.object_key) =
          none →
      (cfg.mode = .hybrid ∨ cfg.static_strategy = none) →
      (categoryCap cfg category = none
        ∨ categoryCap cfg category = some 0
        ∨ ∃ t, categoryCap cfg category = some t ∧ profile.page_count ≤ t) →
      cfg.strategy_for_category category = some entry →
        resolveStrategy cfg profile descriptor overrides category =
          .ok ({ name := .jstr entry.name, reason := "category_default",
                 model := entry.model, max_pages := entry.max_pages },
               ["category_default"]))
    ∧ resolveStrategy c5Config c5Profile c5Descriptor c5Overrides .unknown =
        .ok ({ name := .jstr "A", reason := "request_override", model := none,
               max_pages := none }, ["request"]) := by
  have hstaticSkip : ∀ (cfg : RouterConfig) (profile : DocumentProfile)
      (category : DocumentCategory),
      (cfg.mode = .hybrid ∨ cfg.static_strategy = none) →
      (match cfg.mode, cfg.static_strategy with
       | RoutingMode.static, some static_cfg =>
           (pure ({ name := .jstr static_cfg.name
                    reason := "config_static"
                    model := static_cfg.model
                    max_pages := static_cfg.max_pages },
                  ([] : List String) ++ ["static_config"]) :
             Except String (ParserStrategy × List String))
       | _, _ => determineStrategy cfg profile category []) =
        determineStrategy cfg profile category [] := by
    intro cfg profile category h
    rcases h with h | h
    · rw [h]
    · rw [h]
      cases cfg.mode <;> rfl
  refine ⟨?_, ?_, ?_, ?_, ?_, ?_⟩
  · intro cfg profile descriptor overrides category v hro htr
    simp [resolveStrategy, applyOverrides, hro, htr]
    rfl
  · intro cfg profile descriptor overrides category o hro hfind
    simp [resolveStrategy, applyOverrides, hro, hfind]
    rfl
  · intro cfg profile descriptor overrides category sc hro hfind hmode hstatic
    simp [resolveStrategy, applyOverrides, hro, hfind, hmode, hstatic]
    rfl
  · intro cfg profile descriptor overrides category t hro hfind hns hcap ht hpc
    simp only [resolveStrategy, applyOverrides, hro, Bool.false_eq_true,
      if_false, hfind]
    rw [hstaticSkip cfg profile category hns,
      determineStrategy_via_cap cfg profile category [], hcap]
    simp [ht, hpc]
    rfl
  · intro cfg profile descriptor overrides category entry hro hfind hns hcap hentry
    simp only [resolveStrategy, applyOverrides, hro, Bool.false_eq_true,
      if_false, hfind]
    rw [hstaticSkip cfg profile category hns,
      determineStrategy_via_cap cfg profile category []]
    rcases hcap with hcap | hcap | ⟨t, hcap, hle⟩
    · rw [hcap]
      simp [hentry]
      rfl
    · rw [hcap]
      simp [hentry]
      rfl
    · rw [hcap]
      simp [hentry, not_lt.mpr hle]
      rfl
  · rfl

/-- Witness for C5: the threshold branch at a concrete config whose
table-heavy cap 3 is exceeded by a five-page profile. -/
theorem C5_strategy_priority_order_witness :
    resolveStrategy
      { c5ZeroCapConfig with
          short_form_max_pages := none, table_heavy_max_pages := some 3 }
      { c5OnePageProfile with page_count := 5 }
      c5PlainDescriptor ⟨[]⟩ .table_heavy =
      .ok ({ name := .jstr "D", reason := "page_threshold_exceeded",
             model := none, max_pages := some 3 }, ["threshold_redirect"]) := by
  have h := C5_strategy_priority_order.2.2.2.1
    { c5ZeroCapConfig with
        short_form_max_pages := none, table_heavy_max_pages := some 3 }
    { c5OnePageProfile with page_count := 5 }
    c5PlainDescriptor ⟨[]⟩ .table_heavy 3 rfl rfl (Or.inl rfl) rfl
    (by decide) (by with_unfolding_all decide)
  simpa using h

/-- Object null-freeness distributes over append. -/
theorem jobjNoNulls_append (xs ys : List (String × JValue)) :
    jobjNoNulls (xs ++ ys) = (jobjNoNulls xs && jobjNoNulls ys) := by
  induction xs with
  | nil => simp [jobjNoNulls]
  | cons kv rest ih => simp [jobjNoNulls, ih, Bool.and_assoc]

/-- Array null-freeness is `all`. -/
theorem jarrNoNulls_eq_all (xs : List JValue) :
    jarrNoNulls xs = xs.all JValue.noNulls := by
  induction xs with
  | nil => rfl
  | cons x rest ih => simp [jarrNoNulls, ih]

/-- A conditional singleton segment is null-free when its value is. -/
theorem condSegment_noNulls (b : Bool) (k : String) (v : JValue)
    (hv : v.noNulls = true) :
    jobjNoNulls (if b then [] else [(k, v)]) = true := by
  cases b <;> simp [jobjNoNulls, hv]

/-- An optional segment is null-free when its value always is. -/
theorem optSegment_noNulls {α : Type} (o : Option α) (k : String)
    (g : α → JValue) (hg : ∀ x, o = some x → (g x).noNulls = true) :
    jobjNoNulls
      (match o with
       | some x => [(k, g x)]
       | none => []) = true := by
  cases o with
  | none => rfl
  | some x => simp [jobjNoNulls, hg x rfl]

/-- An array of images of a null-free-producing map is null-free. -/
theorem jarr_map_noNulls {α : Type} (g : α → JValue) :
    ∀ l : List α, (∀ x ∈ l, (g x).noNulls = true) →
      (JValue.jarr (l.map g)).noNulls = true := by
  intro l
  induction l with
  | nil => intro _; simp [JValue.noNulls, jarrNoNulls]
  | cons x rest ih =>
      intro hg
      simp only [List.map_cons, JValue.noNulls, jarrNoNulls, Bool.and_eq_true]
      refine ⟨hg x (by simp), ?_⟩
      have hrest := ih (fun y hy => hg y (List.mem_cons_of_mem _ hy))
      simpa [JValue.noNulls] using hrest

/-- A bounding region serialises without nulls. -/
theorem region_to_dict_noNulls (r : BoundingRegion) :
    (JValue.jobj r.to_dict).noNulls = true := by
  cases hp : r.polygon <;> cases hb : r.bounding_box <;>
    simp [BoundingRegion.to_dict, hp, hb, jint, JValue.noNulls, jobjNoNulls,
      jobjNoNulls_append, jarrNoNulls_eq_all]

/-- A confidence signal with null-free metadata serialises without nulls. -/
theorem sig_to_dict_noNulls (s : ConfidenceSignal) (h : sigInputsOk s = true) :
    (JValue.jobj s.to_dict).noNulls = true := by
  unfold sigInputsOk at h
  cases hm : s.method <;> cases hmo : s.model <;> cases hw : s.weight <;>
    by_cases hmd : s.metadata.isEmpty <;>
      simp [ConfidenceSignal.to_dict, hm, hmo, hw, hmd, JValue.noNulls,
        jobjNoNulls, jobjNoNulls_append, h]

/-- A provenance stamp with null-free metadata serialises without nulls. -/
theorem prov_to_dict_noNulls (p : ExtractionProvenance)
    (h : provInputsOk p = true) :
    (JValue.jobj p.to_dict).noNulls = true := by
  unfold provInputsOk at h
  cases hm : p.method <;> cases hmo : p.model <;> cases hs : p.source <;>
    cases hps : p.page_span <;> by_cases hmd : p.metadata.isEmpty <;>
      simp [ExtractionProvenance.to_dict, hm, hmo, hs, hps, hmd, jint,
        JValue.noNulls, jobjNoNulls, jobjNoNulls_append, jarrNoNulls_eq_all, h]

/-- `jobjNoNulls` form of `region_to_dict_noNulls`. -/
theorem region_dict_nf (r : BoundingRegion) : jobjNoNulls r.to_dict = true := by
  have := region_to_dict_noNulls r
  simpa [JValue.noNulls] using this

/-- `jobjNoNulls` form of `sig_to_dict_noNulls`. -/
theorem sig_dict_nf (s : ConfidenceSignal) (h : sigInputsOk s = true) :
    jobjNoNulls s.to_dict = true := by
  have := sig_to_dict_noNulls s h
  simpa [JValue.noNulls] using this

/-- `jobjNoNulls` form of `prov_to_dict_noNulls`. -/
theorem prov_dict_nf (p : ExtractionProvenance) (h : provInputsOk p = true) :
    jobjNoNulls p.to_dict = true := by
  have := prov_to_dict_noNulls p h
  simpa [JValue.noNulls] using this

/-- Serialised confidence signals are null-free. -/
theorem sigs_map_nf (l : List ConfidenceSignal) (h : l.all sigInputsOk = true) :
    jarrNoNulls (l.map (fun c => JValue.jobj c.to_dict)) = true := by
  induction l with
  | nil => rfl
  | cons c rest ih =>
      simp only [List.all_cons, Bool.and_eq_true] at h
      simp [jarrNoNulls, JValue.noNulls, sig_dict_nf c h.1, ih h.2]

/-- A text span with null-free inputs serialises without nulls. -/
theorem span_dict_nf (s : CanonicalTextSpan) (h : spanInputsOk s = true) :
    jobjNoNulls s.to_dict = true := by
  unfold spanInputsOk at h
  rw [Bool.and_eq_true] at h
  obtain ⟨hsig, hprov⟩ := h
  unfold CanonicalTextSpan.to_dict
  rw [jobjNoNulls_append, jobjNoNulls_append, jobjNoNulls_append,
    jobjNoNulls_append]
  simp only [Bool.and_eq_true]
  refine ⟨⟨⟨⟨?_, ?_⟩, ?_⟩, ?_⟩, ?_⟩
  · simp [jobjNoNulls, JValue.noNulls]
  · cases hr : s.region with
    | none => simp [jobjNoNulls]
    | some r =>
        simp only [jobjNoNulls, JValue.noNulls, Bool.and_true]
        exact region_dict_nf r
  · cases hid : s.span_id <;> simp [jobjNoNulls, JValue.noNulls]
  · cases hp : s.provenance with
    | none => simp [jobjNoNulls]
    | some p =>
        rw [hp] at hprov
        simp only at hprov
        simp only [jobjNoNulls, JValue.noNulls, Bool.and_true]
        exact prov_dict_nf p hprov
  · by_cases hcs : s.confidence_signals.isEmpty
    · simp [hcs, jobjNoNulls]
    · simp [hcs, jobjNoNulls, JValue.noNulls, sigs_map_nf _ hsig]

/-- A visual description with null-free inputs serialises without nulls. -/
theorem vis_dict_nf (v : VisualDescription) (h : visInputsOk v = true) :
    jobjNoNulls v.to_dict = true := by
  unfold visInputsOk at h
  rw [Bool.and_eq_true] at h
  obtain ⟨hsig, hprov⟩ := h
  unfold VisualDescription.to_dict
  rw [jobjNoNulls_append, jobjNoNulls_append, jobjNoNulls_append,
    jobjNoNulls_append]
  simp only [Bool.and_eq_true]
  refine ⟨⟨⟨⟨?_, ?_⟩, ?_⟩, ?_⟩, ?_⟩
  · simp [jobjNoNulls, JValue.noNulls]
  · cases hr : v.region with
    | none => simp [jobjNoNulls]
    | some r =>
        simp only [jobjNoNulls, JValue.noNulls, Bool.and_true]
        exact region_dict_nf r
  · cases ht : v.tags <;>
      simp [jobjNoNulls, JValue.noNulls, jarrNoNulls_eq_all]
  · cases hp : v.provenance with
    | none => simp [jobjNoNulls]
    | some p =>
        rw [hp] at hprov
        simp only at hprov
        simp only [jobjNoNulls, JValue.noNulls, Bool.and_true]
        exact prov_dict_nf p hprov
  · by_cases hcs : v.confidence_signals.isEmpty
    · simp [hcs, jobjNoNulls]
    · simp [hcs, jobjNoNulls, JValue.noNulls, sigs_map_nf _ hsig]

/-- A table cell with null-free inputs serialises without nulls. -/
theorem cell_dict_nf (c : CanonicalTableCell) (h : cellInputsOk c = true) :
    jobjNoNulls c.to_dict = true := by
  unfold cellInputsOk at h
  rw [Bool.and_eq_true] at h
  obtain ⟨hsig, hprov⟩ := h
  unfold CanonicalTableCell.to_dict
  rw [jobjNoNulls_append, jobjNoNulls_append]
  simp only [Bool.and_eq_true]
  refine ⟨⟨?_, ?_⟩, ?_⟩
  · simp only [jobjNoNulls, JValue.noNulls, jint, Bool.and_true, Bool.true_and]
    exact region_dict_nf c.region
  · cases hp : c.provenance with
    | none => simp [jobjNoNulls]
    | some p =>
        rw [hp] at hprov
        simp only at hprov
        simp only [jobjNoNulls, JValue.noNulls, Bool.and_true]
        exact prov_dict_nf p hprov
  · by_cases hcs : c.confidence_signals.isEmpty
    · simp [hcs, jobjNoNulls]
    · simp [hcs, jobjNoNulls, JValue.noNulls, sigs_map_nf _ hsig]

/-- Serialised cells are null-free. -/
theorem cells_map_nf (l : List CanonicalTableCell)
    (h : l.all cellInputsOk = true) :
    jarrNoNulls (l.map (fun c => JValue.jobj c.to_dict)) = true := by
  induction l with
  | nil => rfl
  | cons c rest ih =>
      simp only [List.all_cons, Bool.and_eq_true] at h
      simp [jarrNoNulls, JValue.noNulls, cell_dict_nf c h.1, ih h.2]

/-- A table with null-free inputs serialises without nulls. -/
theorem table_dict_nf (t : CanonicalTable) (h : tableInputsOk t = true) :
    jobjNoNulls t.to_dict = true := by
  unfold tableInputsOk at h
  rw [Bool.and_eq_true] at h
  obtain ⟨hcells, hprov⟩ := h
  unfold CanonicalTable.to_dict
  rw [jobjNoNulls_append, jobjNoNulls_append, jobjNoNulls_append]
  simp only [Bool.and_eq_true]
  refine ⟨⟨⟨?_, ?_⟩, ?_⟩, ?_⟩
  · simp [jobjNoNulls, JValue.noNulls, cells_map_nf _ hcells]
  · cases hc : t.caption <;> simp [jobjNoNulls, JValue.noNulls]
  · cases hf : t.footnotes <;>
      simp [jobjNoNulls, JValue.noNulls, jarrNoNulls_eq_all]
  · cases hp : t.provenance with
    | none => simp [jobjNoNulls]
    | some p =>
        rw [hp] at hprov
        simp only at hprov
        simp only [jobjNoNulls, JValue.noNulls, Bool.and_true]
        exact prov_dict_nf p hprov

/-- A structured field with a set value and null-free inputs serialises
without nulls. -/
theorem field_dict_nf (f : StructuredField) (h : fieldInputsOk f = true) :
    jobjNoNulls f.to_dict = true := by
  unfold fieldInputsOk at h
  rw [Bool.and_eq_true, Bool.and_eq_true] at h
  obtain ⟨⟨hval, hsig⟩, hprov⟩ := h
  obtain ⟨v, hv⟩ := Option.isSome_iff_exists.mp hval
  unfold StructuredField.to_dict
  rw [jobjNoNulls_append, jobjNoNulls_append, jobjNoNulls_append,
    jobjNoNulls_append]
  simp only [Bool.and_eq_true]
  refine ⟨⟨⟨⟨?_, ?_⟩, ?_⟩, ?_⟩, ?_⟩
  · simp [jobjNoNulls, JValue.noNulls, hv]
  · cases hvt : f.value_type <;> simp [jobjNoNulls, JValue.noNulls]
  · cases hr : f.region with
    | none => simp [jobjNoNulls]
    | some r =>
        simp only [jobjNoNulls, JValue.noNulls, Bool.and_true]
        exact region_dict_nf r
  · cases hp : f.provenance with
    | none => simp [jobjNoNulls]
    | some p =>
        rw [hp] at hprov
        simp only at hprov
        simp only [jobjNoNulls, JValue.noNulls, Bool.and_true]
        exact prov_dict_nf p hprov
  · by_cases hcs : f.confidence_signals.isEmpty
    · simp [hcs, jobjNoNulls]
    · simp [hcs, jobjNoNulls, JValue.noNulls, sigs_map_nf _ hsig]

/-- A page segment with null-free metadata serialises without nulls. -/
theorem seg_dict_nf (p : PageSegment) (h : segInputsOk p = true) :
    jobjNoNulls p.to_dict = true := by
  unfold segInputsOk at h
  cases hm : p.method <;> cases hc : p.confidence <;>
    by_cases hmd : p.metadata.isEmpty <;>
      simp [PageSegment.to_dict, hm, hc, hmd, jint, JValue.noNulls,
        jobjNoNulls, jobjNoNulls_append, h]

/-- A summary with null-free metadata serialises without nulls. -/
theorem sum_dict_nf (s : DocumentSummary) (h : sumInputsOk s = true) :
    jobjNoNulls s.to_dict = true := by
  unfold sumInputsOk at h
  cases ht : s.title <;> cases hm : s.model <;> cases hj : s.justification <;>
    by_cases hmd : s.metadata.isEmpty <;>
      simp [DocumentSummary.to_dict, ht, hm, hj, hmd, JValue.noNulls,
        jobjNoNulls, jobjNoNulls_append, h]

/-- An enrichment with null-free content and metadata serialises without
nulls. -/
theorem enr_dict_nf (e : DocumentEnrichment) (h : enrInputsOk e = true) :
    jobjNoNulls e.to_dict = true := by
  unfold enrInputsOk at h
  rw [Bool.and_eq_true] at h
  obtain ⟨hcnt, hmd⟩ := h
  cases hc : e.confidence <;> cases hm : e.model <;> cases hd : e.duration_ms <;>
    by_cases hme : e.metadata.isEmpty <;>
      simp [DocumentEnrichment.to_dict, hc, hm, hd, hme, jint, JValue.noNulls,
        jobjNoNulls, jobjNoNulls_append, hcnt, hmd]

/-- Mapped node serialisations are null-free when every node's inputs
are. -/
theorem map_dicts_nf {α : Type} (q : α → Bool) (g : α → List (String × JValue))
    (hg : ∀ x, q x = true → jobjNoNulls (g x) = true) :
    ∀ l : List α, l.all q = true →
      jarrNoNulls (l.map (fun x => JValue.jobj (g x))) = true := by
  intro l
  induction l with
  | nil => intro _; rfl
  | cons x rest ih =>
      intro h
      simp only [List.all_cons, Bool.and_eq_true] at h
      simp [jarrNoNulls, JValue.noNulls, hg x h.1, ih h.2]

set_option maxHeartbeats 2000000 in
mutual
/-- A document whose inputs are null-free serialises without nulls. -/
theorem doc_dict_nf : ∀ d : CanonicalDocument, docInputsOk d = true →
    jobjNoNulls (CanonicalDocument.to_dict d) = true
  | .mk did suri csum ts tb fs vs ps atts sums enrs dt mt sv md => fun h => by
      simp only [docInputsOk, Bool.and_eq_true] at h
      obtain ⟨⟨⟨⟨⟨⟨⟨⟨hmd, hts⟩, htb⟩, hfs⟩, hvs⟩, hps⟩, hatts⟩, hsums⟩, henrs⟩ := h
      rw [CanonicalDocument.to_dict.eq_def]
      dsimp only
      rw [jobjNoNulls_append, jobjNoNulls_append, jobjNoNulls_append,
        jobjNoNulls_append, jobjNoNulls_append, jobjNoNulls_append,
        jobjNoNulls_append]
      simp only [Bool.and_eq_true]
      refine ⟨⟨⟨⟨⟨⟨⟨?_, ?_⟩, ?_⟩, ?_⟩, ?_⟩, ?_⟩, ?_⟩, ?_⟩
      · simp [jobjNoNulls, JValue.noNulls, hmd,
          map_dicts_nf spanInputsOk CanonicalTextSpan.to_dict span_dict_nf ts hts,
          map_dicts_nf tableInputsOk CanonicalTable.to_dict table_dict_nf tb htb,
          map_dicts_nf fieldInputsOk StructuredField.to_dict field_dict_nf fs hfs]
      · by_cases he : sums.isEmpty <;>
          simp [he, jobjNoNulls, JValue.noNulls,
            map_dicts_nf sumInputsOk DocumentSummary.to_dict sum_dict_nf sums hsums]
      · by_cases he : enrs.isEmpty <;>
          simp [he, jobjNoNulls, JValue.noNulls,
            map_dicts_nf enrInputsOk DocumentEnrichment.to_dict enr_dict_nf enrs henrs]
      · by_cases he : vs.isEmpty <;>
          simp [he, jobjNoNulls, JValue.noNulls,
            map_dicts_nf visInputsOk VisualDescription.to_dict vis_dict_nf vs hvs]
      · by_cases he : ps.isEmpty <;>
          simp [he, jobjNoNulls, JValue.noNulls,
            map_dicts_nf segInputsOk PageSegment.to_dict seg_dict_nf ps hps]
      · by_cases he : atts.isEmpty
        · simp [he, jobjNoNulls]
        · simp [he, jobjNoNulls, JValue.noNulls, attachList_dict_nf atts hatts]
      · cases dt <;> simp [jobjNoNulls, JValue.noNulls]
      · cases mt <;> simp [jobjNoNulls, JValue.noNulls]

/-- Serialised attachments are null-free when their inputs are. -/
theorem attachList_dict_nf : ∀ as_ : List DocumentAttachment,
    attachListInputsOk as_ = true → jarrNoNulls (attachmentDicts as_) = true
  | [] => fun _ => by simp [attachmentDicts, jarrNoNulls]
  | a :: rest => fun h => by
      simp only [attachListInputsOk, Bool.and_eq_true] at h
      simp [attachmentDicts, jarrNoNulls, JValue.noNulls,
        attach_dict_nf a h.1, attachList_dict_nf rest h.2]

/-- An attachment whose inputs are null-free serialises without nulls. -/
theorem attach_dict_nf : ∀ a : DocumentAttachment, attachInputsOk a = true →
    jobjNoNulls (DocumentAttachment.to_dict a) = true
  | .mk aid fn mtype csum suri none md => fun h => by
      simp only [attachInputsOk, Bool.and_eq_true] at h
      obtain ⟨hmd, _⟩ := h
      rw [DocumentAttachment.to_dict.eq_def]
      dsimp only
      rw [jobjNoNulls_append, jobjNoNulls_append, jobjNoNulls_append,
        jobjNoNulls_append]
      simp only [Bool.and_eq_true]
      refine ⟨⟨⟨⟨?_, ?_⟩, ?_⟩, ?_⟩, ?_⟩
      · simp [jobjNoNulls, JValue.noNulls]
      · cases csum <;> simp [jobjNoNulls, JValue.noNulls]
      · cases suri <;> simp [jobjNoNulls, JValue.noNulls]
      · by_cases he : md.isEmpty <;> simp [he, jobjNoNulls, JValue.noNulls, hmd]
      · simp [jobjNoNulls]
  | .mk aid fn mtype csum suri (some d) md => fun h => by
      simp only [attachInputsOk, Bool.and_eq_true] at h
      obtain ⟨hmd, hdoc⟩ := h
      rw [DocumentAttachment.to_dict.eq_def]
      dsimp only
      rw [jobjNoNulls_append, jobjNoNulls_append, jobjNoNulls_append,
        jobjNoNulls_append]
      simp only [Bool.and_eq_true]
      refine ⟨⟨⟨⟨?_, ?_⟩, ?_⟩, ?_⟩, ?_⟩
      · simp [jobjNoNulls, JValue.noNulls]
      · cases csum <;> simp [jobjNoNulls, JValue.noNulls]
      · cases suri <;> simp [jobjNoNulls, JValue.noNulls]
      · by_cases he : md.isEmpty <;> simp [he, jobjNoNulls, JValue.noNulls, hmd]
      · simp only [jobjNoNulls, JValue.noNulls, Bool.and_true]
        exact doc_dict_nf d hdoc
end

/-- Claim C8 counterexample: a canonical document holding a structured
field with a null value serialises that null (`StructuredField.to_dict`
always emits the `value` key), so the persisted record carries a null; the
PyMuPDF adapter produces exactly such fields from a payload whose field
omits its value. -/
theorem C8_counterexample_null_field_value_serialised :
    (JValue.jobj c8Doc.to_dict).noNulls = false
    ∧ (pymupdfTransform
        (.jobj [("pages", .jarr
          [.jobj [("page_number", .jnum 1),
                  ("fields", .jobj
                    [("Total", .jobj [("confidence", .jnum (1/2))])])]])])
        "doc-1" "s3://b/d.pdf" "cs" []).map
        (fun d => (JValue.jobj d.to_dict).noNulls) = .ok false := by
  constructor
  · rfl
  · with_unfolding_all rfl

/-- Claim C8 amended: serialisation omits every null-valued optional field
except `StructuredField.value` (always emitted): whenever every structured
field in the document tree has a set value and the embedded metadata and
enrichment-content dicts carry no nulls, the serialised record carries no
nulls at any level. -/
theorem C8_to_dict_null_free_on_null_free_inputs :
    ∀ d : CanonicalDocument, docInputsOk d = true →
      (JValue.jobj d.to_dict).noNulls = true := by
  intro d h
  have := doc_dict_nf d h
  simpa [JValue.noNulls] using this

/-- Witness for C8 at a concrete document with a set field value, an
attachment carrying a child document, and non-empty metadata. -/
theorem C8_to_dict_null_free_witness :
    (JValue.jobj (CanonicalDocument.to_dict
      (.mk "doc-1" "s3://b/d.pdf" "cs"
        [{ content := "A", confidence := 1/2, region := none,
           span_id := some "s0", provenance := none, confidence_signals := [] }]
        []
        [{ name := "Total", value := some "100", confidence := 1/2,
           value_type := none, region := none, provenance := none,
           confidence_signals := [] }]
        [] []
        [.mk "1" "inner.pdf" "application/pdf" none none
          (some (.mk "doc-1::attachment-1" "s" "c" [] [] [] [] [] [] [] []
            none none SCHEMA_VERSION []))
          [("size_bytes", .jnum 3)]]
        [] [] none none SCHEMA_VERSION
        [("provider", .jstr "pymupdf")]))).noNulls = true :=
  C8_to_dict_null_free_on_null_free_inputs _ (by rfl)

/-- The entry loop of the ensemble transform appends, in entry order, the
collections of the documents its sub-adapters produce, and records one
`parsers_used` entry (provider stamp, falling back to the entry name) per
dispatched entry. -/
theorem multiFold_spec (adapters : List (String × AdapterFn))
    (did suri csum : String) (shared : List (String × JValue)) :
    ∀ (entries : List JValue) (acc acc' : MultiAccum),
      entries.foldlM (multiStep adapters did suri csum shared) acc = .ok acc' →
      ∃ pairs, multiSubDocs adapters did suri csum shared entries = .ok pairs
        ∧ acc'.text_spans =
            acc.text_spans ++ pairs.flatMap (fun p => p.2.text_spans)
        ∧ acc'.tables = acc.tables ++ pairs.flatMap (fun p => p.2.tables)
        ∧ acc'.fields = acc.fields ++ pairs.flatMap (fun p => p.2.fields)
        ∧ acc'.visuals =
            acc.visuals ++ pairs.flatMap (fun p => p.2.visual_descriptions)
        ∧ acc'.segments =
            acc.segments ++ pairs.flatMap (fun p => p.2.page_segments)
        ∧ acc'.attachments =
            acc.attachments ++ pairs.flatMap (fun p => p.2.attachments)
        ∧ acc'.summaries =
            acc.summaries ++ pairs.flatMap (fun p => p.2.summaries)
        ∧ acc'.parsers_used =
            acc.parsers_used ++ pairs.map
              (fun p => pyStr ((mdGetD p.2.metadata "provider").orElse p.1)) := by
  intro entries
  induction entries with
  | nil =>
      intro acc acc' h
      rw [List.foldlM_nil] at h
      cases h
      exact ⟨[], rfl, by simp, by simp, by simp, by simp, by simp, by simp,
        by simp, by simp⟩
  | cons e rest ih =>
      intro acc acc' h
      rw [List.foldlM_cons] at h
      cases hstep : multiStep adapters did suri csum shared acc e with
      | error err => rw [hstep] at h; exact absurd h (by simp [Bind.bind, Except.bind])
      | ok a1 =>
          rw [hstep] at h
          have h1 : rest.foldlM (multiStep adapters did suri csum shared) a1 =
              .ok acc' := by
            simpa [Bind.bind, Except.bind] using h
          obtain ⟨pairs1, hsub1, he1, he2, he3, he4, he5, he6, he7, he8⟩ :=
            ih a1 acc' h1
          by_cases hobj : e.isObj
          · -- a dict entry: reduce the step through name, registry, metadata
            -- and the sub-adapter call
            by_cases hname : (e.getD "name").truthy
            · cases hlook : (adapters.find? (fun kv => kv.1 = pyStr (e.getD "name"))).map (·.2) with
              | none =>
                  rw [multiStep] at hstep
                  simp [hobj, hname, hlook] at hstep
              | some adapter =>
                  cases hm : (e.getD "metadata").orElse (.jobj []) with
                  | jobj kvs =>
                    cases hc : adapter (e.getD "payload") did suri csum
                        (dictMerge shared kvs) with
                    | error err =>
                        rw [multiStep] at hstep
                        simp [hobj, hname, hlook, hm, hc, Bind.bind,
                          Except.bind, pure, Except.pure] at hstep
                    | ok canonical =>
                        rw [multiStep] at hstep
                        simp only [hobj, hname, hlook, hm, hc, Bool.not_true,
                          Bool.false_eq_true, if_false, Bind.bind,
                          Except.bind, pure, Except.pure, Except.ok.injEq] at hstep
                        refine ⟨(e.getD "name", canonical) :: pairs1, ?_, ?_, ?_,
                          ?_, ?_, ?_, ?_, ?_, ?_⟩
                        · rw [multiSubDocs]
                          simp [hobj, hname, hlook, hm, hc, hsub1, Bind.bind,
                            Except.bind, pure, Except.pure]
                        all_goals
                          simp [he1, he2, he3, he4, he5, he6, he7, he8,
                            ← hstep, mdGetD]
                  | jnull =>
                      rw [multiStep] at hstep
                      simp [hobj, hname, hlook, hm, Bind.bind, Except.bind,
                        pure, Except.pure] at hstep
                  | jbool b =>
                      rw [multiStep] at hstep
                      simp [hobj, hname, hlook, hm, Bind.bind, Except.bind,
                        pure, Except.pure] at hstep
                  | jnum q =>
                      rw [multiStep] at hstep
                      simp [hobj, hname, hlook, hm, Bind.bind, Except.bind,
                        pure, Except.pure] at hstep
                  | jstr str =>
                      rw [multiStep] at hstep
                      simp [hobj, hname, hlook, hm, Bind.bind, Except.bind,
                        pure, Except.pure] at hstep
                  | jarr xs =>
                      rw [multiStep] at hstep
                      simp [hobj, hname, hlook, hm, Bind.bind, Except.bind,
                        pure, Except.pure] at hstep
            · rw [multiStep] at hstep
              simp [hobj, hname] at hstep
          · -- a non-dict entry is skipped
            have ha1 : a1 = acc := by
              rw [multiStep] at hstep
              simp only [hobj, Bool.false_eq_true, Bool.not_false, if_true,
                pure, Except.pure, Except.ok.injEq, Bool.not_eq_true,
                if_pos] at hstep
              simpa using hstep.symm
            subst ha1
            refine ⟨pairs1, ?_, he1, he2, he3, he4, he5, he6, he7, he8⟩
            rw [multiSubDocs]
            simp [hobj, hsub1]

/-- Inverting a successful `Except` bind. -/
theorem exceptBind_ok {α β : Type} {E : Except String α}
    {f : α → Except String β} {b : β} (h : E >>= f = .ok b) :
    ∃ a, E = .ok a ∧ f a = .ok b := by
  cases E with
  | error e => simp [Bind.bind, Except.bind] at h
  | ok a => exact ⟨a, rfl, by simpa [Bind.bind, Except.bind] using h⟩

/-- `dict[k] = v` after `dict[k] = v` on a dict that already has `k`. -/
theorem find?_set_of_mem (m : List (String × JValue)) (k : String) (v : JValue)
    (hany : m.any (fun kv => kv.1 = k) = true) :
    (m.map (fun kv => if kv.1 = k then (k, v) else kv)).find?
        (fun kv => kv.1 = k) = some (k, v) := by
  induction m with
  | nil => simp at hany
  | cons a m ih =>
      by_cases ha : a.1 = k
      · simp [List.find?_cons, ha]
      · have htl : m.any (fun kv => kv.1 = k) = true := by
          simpa [List.any_cons, ha] using hany
        simp [List.find?_cons, ha, ih htl]

/-- `dict[k] = v` after appending `(k, v)` to a dict lacking `k`. -/
theorem find?_append_of_not_mem (m : List (String × JValue)) (k : String)
    (v : JValue) (hany : m.any (fun kv => kv.1 = k) = false) :
    (m ++ [(k, v)]).find? (fun kv => kv.1 = k) = some (k, v) := by
  induction m with
  | nil => simp [List.find?_cons]
  | cons a m ih =>
      have ha : ¬ a.1 = k := by
        intro hk
        simp [List.any_cons, hk] at hany
      have htl : m.any (fun kv => kv.1 = k) = false := by
        simpa [List.any_cons, ha] using hany
      simp [List.find?_cons, ha, ih htl]

/-- Setting a key makes it readable: `mdGet (dictSet m k v) k = some v`. -/
theorem mdGet_dictSet (m : List (String × JValue)) (k : String) (v : JValue) :
    mdGet (dictSet m k v) k = some v := by
  unfold dictSet mdGet
  by_cases hany : m.any (fun kv => kv.1 = k)
  · rw [if_pos hany, find?_set_of_mem m k v hany]
    rfl
  · rw [if_neg hany, find?_append_of_not_mem m k v (by
      simp only [Bool.not_eq_true] at hany
      exact hany)]
    rfl

/-- Reading string values back out of a serialised string list. -/
theorem filterMap_jstr_map (l : List String) :
    (l.map JValue.jstr).filterMap (fun v =>
      match v with
      | .jstr s => some s
      | _ => none) = l := by
  induction l with
  | nil => rfl
  | cons a l ih => simp [List.filterMap_cons, ih]

/-- Claim C7, counterexample: on the claim's own ensemble input (entries
named "pdf" with one span "A", then "llm" with one span "B") the transform
does merge the two spans in order, but `metadata.parsers_used` records the
sub-adapters' provider stamps `["pymupdf", "databricks_llm_image"]`, not the
entry names `["pdf", "llm"]` the claim asserts. -/
theorem C7_counterexample_parsers_used_are_provider_names :
    (multiParserTransform c7Adapters c7Payload "combo-1" "dbfs:/docs/combo.pdf"
        "combo-checksum" []).map
        (fun d => (d.text_spans.map (fun s => s.content), parsersUsedOf d)) =
      .ok (["A", "B"], ["pymupdf", "databricks_llm_image"])
    ∧ (["pymupdf", "databricks_llm_image"] : List String) ≠ ["pdf", "llm"] :=
  ⟨by with_unfolding_all rfl, by decide⟩

/-- Claim C7 (amended: `parsers_used` lists each sub-document's provider
stamp, falling back to the entry name — not the entry names themselves):
whenever the ensemble transform succeeds, the output's text spans, tables,
fields, visuals, page segments, attachments and summaries are the
order-preserving concatenations, over the dispatched entries in encounter
order, of the sub-documents' collections (attachments followed by the
payload-level extras), and when at least one entry was dispatched the
metadata's `parsers_used` lists, in encounter order, the string form of each
sub-document's provider stamp or, when that is absent, of the entry name. -/
theorem C7_ensemble_merge_preserves_order
    (adapters : List (String × AdapterFn)) (payload : JValue)
    (did suri csum : String) (metadata : List (String × JValue))
    (doc : CanonicalDocument)
    (h : multiParserTransform adapters payload did suri csum metadata = .ok doc) :
    ∃ entries shared pairs,
      multiEntriesOf payload = .ok entries
      ∧ multiSharedOf payload metadata = .ok shared
      ∧ multiSubDocs adapters did suri csum shared entries = .ok pairs
      ∧ doc.text_spans = pairs.flatMap (fun p => p.2.text_spans)
      ∧ doc.tables = pairs.flatMap (fun p => p.2.tables)
      ∧ doc.fields = pairs.flatMap (fun p => p.2.fields)
      ∧ doc.visual_descriptions = pairs.flatMap (fun p => p.2.visual_descriptions)
      ∧ doc.page_segments = pairs.flatMap (fun p => p.2.page_segments)
      ∧ doc.attachments =
          pairs.flatMap (fun p => p.2.attachments) ++ multiExtraAttachmentsOf payload
      ∧ doc.summaries = pairs.flatMap (fun p => p.2.summaries)
      ∧ (pairs ≠ [] →
          parsersUsedOf doc = pairs.map
            (fun p => pyStr ((mdGetD p.2.metadata "provider").orElse p.1))) := by
  rw [multiParserTransform] at h
  obtain ⟨payload_dict, hpd, h⟩ := exceptBind_ok h
  have hpayload : payload = JValue.jobj payload_dict := by
    cases payload <;> simp [ensureMapping, pure, Except.pure] at hpd <;> simp [hpd]
  cases hg : (JValue.jobj payload_dict).get "parsers" with
  | none => simp [hg, Bind.bind, Except.bind] at h
  | some v =>
      cases v with
      | jarr l =>
          cases hxe : l.isEmpty with
          | true => simp [hg, hxe, Bind.bind, Except.bind] at h
          | false =>
              simp only [hg, hxe, Bool.false_eq_true, if_false, pure_bind] at h
              cases hm : ((JValue.jobj payload_dict).getD "document_metadata").orElse
                  (.jobj []) with
              | jobj s0 =>
                  simp only [hm, pure_bind] at h
                  obtain ⟨acc, hacc, h⟩ := exceptBind_ok h
                  have hdoc : doc = CanonicalDocument.mk did suri csum
                      acc.text_spans acc.tables acc.fields acc.visuals acc.segments
                      (acc.attachments ++ multiParseAdditionalAttachments
                        ((JValue.jobj payload_dict).getD "attachments"))
                      acc.summaries [] acc.document_type acc.mime_type SCHEMA_VERSION
                      (if acc.parsers_used.isEmpty then
                        dictMerge [("provider", .jstr "multi_parser")]
                          (if metadata.isEmpty then s0 else dictMerge s0 metadata)
                       else
                        dictSet (dictMerge [("provider", .jstr "multi_parser")]
                            (if metadata.isEmpty then s0 else dictMerge s0 metadata))
                          "parsers_used" (.jarr (acc.parsers_used.map .jstr))) := by
                    simpa [pure, Except.pure] using h.symm
                  obtain ⟨pairs, hsub, he1, he2, he3, he4, he5, he6, he7, he8⟩ :=
                    multiFold_spec adapters did suri csum
                      (if metadata.isEmpty then s0 else dictMerge s0 metadata) l _ acc hacc
                  refine ⟨l, (if metadata.isEmpty then s0 else dictMerge s0 metadata),
                    pairs, ?_, ?_, hsub, ?_, ?_, ?_, ?_, ?_, ?_, ?_, ?_⟩
                  · rw [multiEntriesOf, hpayload]
                    simp [ensureMapping, Bind.bind, Except.bind, pure,
                      Except.pure, hg, hxe]
                  · rw [multiSharedOf, hpayload]
                    simp [ensureMapping, Bind.bind, Except.bind, pure,
                      Except.pure, hm]
                  · simp [hdoc, he1, CanonicalDocument.text_spans]
                  · simp [hdoc, he2, CanonicalDocument.tables]
                  · simp [hdoc, he3, CanonicalDocument.fields]
                  · simp [hdoc, he4, CanonicalDocument.visual_descriptions]
                  · simp [hdoc, he5, CanonicalDocument.page_segments]
                  · rw [hdoc, hpayload]
                    simp [he6, multiExtraAttachmentsOf, CanonicalDocument.attachments]
                  · simp [hdoc, he7, CanonicalDocument.summaries]
                  · intro hne
                    have hused : acc.parsers_used = pairs.map
                        (fun p => pyStr ((mdGetD p.2.metadata "provider").orElse p.1)) := by
                      simpa using he8
                    have hnonempty : acc.parsers_used.isEmpty = false := by
                      rw [hused]
                      cases pairs with
                      | nil => exact absurd rfl hne
                      | cons a rest => rfl
                    rw [hdoc, parsersUsedOf]
                    simp only [CanonicalDocument.metadata, hnonempty,
                      Bool.false_eq_true, if_false]
                    rw [mdGet_dictSet]
                    simpa [hused, CanonicalDocument.metadata] using
                      filterMap_jstr_map acc.parsers_used
              | jnull => simp [hm, Bind.bind, Except.bind] at h
              | jbool b => simp [hm, Bind.bind, Except.bind] at h
              | jnum q => simp [hm, Bind.bind, Except.bind] at h
              | jstr str => simp [hm, Bind.bind, Except.bind] at h
              | jarr ys => simp [hm, Bind.bind, Except.bind] at h
      | jnull => simp [hg, Bind.bind, Except.bind] at h
      | jbool b => simp [hg, Bind.bind, Except.bind] at h
      | jnum q => simp [hg, Bind.bind, Except.bind] at h
      | jstr str => simp [hg, Bind.bind, Except.bind] at h
      | jobj kvs2 => simp [hg, Bind.bind, Except.bind] at h

/-- Witness for C7: the merge theorem instantiated on the claim's two-entry
ensemble input. -/
theorem C7_ensemble_merge_witness :
    ∃ entries shared pairs,
      multiEntriesOf c7Payload = .ok entries
      ∧ multiSharedOf c7Payload [] = .ok shared
      ∧ multiSubDocs c7Adapters "combo-1" "dbfs:/docs/combo.pdf" "combo-checksum"
          shared entries = .ok pairs
      ∧ c7Doc.text_spans = pairs.flatMap (fun p => p.2.text_spans)
      ∧ c7Doc.tables = pairs.flatMap (fun p => p.2.tables)
      ∧ c7Doc.fields = pairs.flatMap (fun p => p.2.fields)
      ∧ c7Doc.visual_descriptions = pairs.flatMap (fun p => p.2.visual_descriptions)
      ∧ c7Doc.page_segments = pairs.flatMap (fun p => p.2.page_segments)
      ∧ c7Doc.attachments =
          pairs.flatMap (fun p => p.2.attachments) ++ multiExtraAttachmentsOf c7Payload
      ∧ c7Doc.summaries = pairs.flatMap (fun p => p.2.summaries)
      ∧ (pairs ≠ [] →
          parsersUsedOf c7Doc = pairs.map
            (fun p => pyStr ((mdGetD p.2.metadata "provider").orElse p.1))) :=
  C7_ensemble_merge_preserves_order c7Adapters c7Payload "combo-1"
    "dbfs:/docs/combo.pdf" "combo-checksum" [] c7Doc (by with_unfolding_all rfl)
